import Mathlib

/-!
# Verification of the netflow_generator packet-assembly pipeline

Shallow embedding of the Rust sources of `netflow_generator` (src/):
machine integers become `Nat` with explicit `% 2^w` where wrapping occurs,
byte buffers become `List Nat` (each element a byte value), fallible code
returns `Except String`.  Wall-clock reads (`SystemTime::now`) are modelled
by an explicit `now` parameter.  Definitions follow the source files
`src/generator/{field_serializer,v5,v9,ipfix}.rs`, `src/config/validator.rs`,
`src/transmitter/udp.rs` and `src/main.rs`.
-/

/-- Big-endian bytes of a `u16` (`u16::to_be_bytes`); the `% 2^8` reductions
are the identity on genuine byte values. -/
def be16 (n : Nat) : List Nat := [n / 2^8 % 2^8, n % 2^8]

/-- Big-endian bytes of a `u32` (`u32::to_be_bytes`). -/
def be32 (n : Nat) : List Nat :=
  [n / 2^24 % 2^8, n / 2^16 % 2^8, n / 2^8 % 2^8, n % 2^8]

/-- Big-endian bytes of a `u64` (`u64::to_be_bytes`). -/
def be64 (n : Nat) : List Nat :=
  [n / 2^56 % 2^8, n / 2^48 % 2^8, n / 2^40 % 2^8, n / 2^32 % 2^8,
   n / 2^24 % 2^8, n / 2^16 % 2^8, n / 2^8 % 2^8, n % 2^8]

/-- The lower `len` bytes of `n` in big-endian order (`n` reduced modulo
`2^(8*len)`, zero-extended to `len` bytes). -/
def natToBE (len n : Nat) : List Nat :=
  (List.range len).map (fun i => n / 2^(8 * (len - 1 - i)) % 2^8)

/-- `packet[pos..pos+2].copy_from_slice(&v.to_be_bytes())`: overwrite the two
bytes at `pos` with the big-endian encoding of the 16-bit value `v`. -/
def writeBe16At (packet : List Nat) (pos v : Nat) : List Nat :=
  packet.take pos ++ be16 v ++ packet.drop (pos + 2)

/-- Read the big-endian 16-bit word stored at byte offset `pos`. -/
def readBe16 (packet : List Nat) (pos : Nat) : Nat :=
  packet.getD pos 0 * 2^8 + packet.getD (pos + 1) 0

/-- Read the big-endian 32-bit word stored at byte offset `pos`. -/
def readBe32 (packet : List Nat) (pos : Nat) : Nat :=
  packet.getD pos 0 * 2^24 + packet.getD (pos + 1) 0 * 2^16 +
  packet.getD (pos + 2) 0 * 2^8 + packet.getD (pos + 3) 0

/-! ## Value encoder — `src/generator/field_serializer.rs`

`serde_yaml::Value` is modelled by `YamlValue`: strings, numbers whose
`as_u64()` succeeds (non-negative integers, which serde_yaml stores as `u64`),
numbers whose `as_u64()` fails (negative integers and floats), mappings with
string keys (the record keys used by the configuration format; a non-string
key can never match the string lookup in `get_field_value` and therefore
behaves exactly like an absent key), and all other YAML values. -/

inductive YamlValue where
  | str (s : String)
  | numU (n : Nat)
  | numOther
  | mapping (entries : List (String × YamlValue))
  | other

/-- One step of splitting a character list at `'.'` separators. -/
def splitOn (sep : Char) : List Char → List (List Char)
  | [] => [[]]
  | c :: rest =>
    if c = sep then [] :: splitOn sep rest
    else
      match splitOn sep rest with
      | g :: gs => (c :: g) :: gs
      | [] => [[c]]

/-- Decimal value of a digit list (used after checking every char is a digit). -/
def digitsVal (cs : List Char) : Nat :=
  cs.foldl (fun a c => a * 10 + (c.toNat - 48)) 0

/-- One dotted-quad octet as accepted by Rust's `Ipv4Addr` reader: one to
three decimal digits, no leading zero unless the octet is exactly "0",
value at most 255. -/
def parseOctet (cs : List Char) : Option Nat :=
  if cs ≠ [] ∧ cs.length ≤ 3 ∧ cs.all Char.isDigit ∧
      (cs.length = 1 ∨ cs.headD '0' ≠ '0') then
    let v := digitsVal cs
    if v ≤ 255 then some v else none
  else none

/-- Rust `s.parse::<Ipv4Addr>()`: exactly four octets separated by dots. -/
def parseIpv4 (cs : List Char) : Option (Nat × Nat × Nat × Nat) :=
  match (splitOn '.' cs).mapM parseOctet with
  | some [a, b, c, d] => some (a, b, c, d)
  | _ => none

/-- `serialize_field_value` (field_serializer.rs:5-33): strings that parse as
IPv4 yield their four octets; `u64` numbers are encoded big-endian at widths
1, 2, 4, 8 via `as u8`/`as u16`/`as u32` casts (lower bytes); everything
else yields `field_length` zero bytes. -/
def serialize_field_value (value : YamlValue) (field_length : Nat) : List Nat :=
  match value with
  | .str s =>
    match parseIpv4 s.data with
    | some (a, b, c, d) => [a, b, c, d]
    | none => List.replicate field_length 0
  | .numU n =>
    if field_length = 1 then [n % 2^8]
    else if field_length = 2 then be16 n
    else if field_length = 4 then be32 n
    else if field_length = 8 then be64 n
    else List.replicate field_length 0
  | _ => List.replicate field_length 0

/-- `get_field_value` (field_serializer.rs:36-46): look a string key up in a
YAML mapping; any other value yields `none`. -/
def get_field_value (record : YamlValue) (field_name : String) : Option YamlValue :=
  match record with
  | .mapping entries =>
    match entries.find? (fun e => e.1 = field_name) with
    | some e => some e.2
    | none => none
  | _ => none

/-! ## Field registries -/

/-- `field_name_to_id` in v9.rs (lines 294-322): v9 field names to IANA ids. -/
def v9_field_name_to_id (name : String) : Option Nat :=
  if name = "IN_BYTES" then some 1
  else if name = "IN_PKTS" then some 2
  else if name = "FLOWS" then some 3
  else if name = "PROTOCOL" then some 4
  else if name = "SRC_TOS" then some 5
  else if name = "TCP_FLAGS" then some 6
  else if name = "L4_SRC_PORT" then some 7
  else if name = "IPV4_SRC_ADDR" then some 8
  else if name = "SRC_MASK" then some 9
  else if name = "INPUT_SNMP" then some 10
  else if name = "L4_DST_PORT" then some 11
  else if name = "IPV4_DST_ADDR" then some 12
  else if name = "DST_MASK" then some 13
  else if name = "OUTPUT_SNMP" then some 14
  else if name = "IPV4_NEXT_HOP" then some 15
  else if name = "SRC_AS" then some 16
  else if name = "DST_AS" then some 17
  else if name = "BGP_IPV4_NEXT_HOP" then some 18
  else if name = "MUL_DST_PKTS" then some 19
  else if name = "MUL_DST_BYTES" then some 20
  else if name = "LAST_SWITCHED" then some 21
  else if name = "FIRST_SWITCHED" then some 22
  else if name = "OUT_BYTES" then some 23
  else if name = "OUT_PKTS" then some 24
  else none

/-- `v9_field_id_to_name` (field_serializer.rs:49-77). -/
def v9_field_id_to_name (field_type : Nat) : String :=
  if field_type = 1 then "in_bytes"
  else if field_type = 2 then "in_pkts"
  else if field_type = 3 then "flows"
  else if field_type = 4 then "protocol"
  else if field_type = 5 then "src_tos"
  else if field_type = 6 then "tcp_flags"
  else if field_type = 7 then "src_port"
  else if field_type = 8 then "src_addr"
  else if field_type = 9 then "src_mask"
  else if field_type = 10 then "input_snmp"
  else if field_type = 11 then "dst_port"
  else if field_type = 12 then "dst_addr"
  else if field_type = 13 then "dst_mask"
  else if field_type = 14 then "output_snmp"
  else if field_type = 15 then "next_hop"
  else if field_type = 16 then "src_as"
  else if field_type = 17 then "dst_as"
  else if field_type = 18 then "bgp_next_hop"
  else if field_type = 19 then "mul_dst_pkts"
  else if field_type = 20 then "mul_dst_bytes"
  else if field_type = 21 then "last_switched"
  else if field_type = 22 then "first_switched"
  else if field_type = 23 then "out_bytes"
  else if field_type = 24 then "out_pkts"
  else "unknown"

/-- `field_name_to_id` in ipfix.rs (lines 272-296): IPFIX Information Element
names to IANA ids. -/
def ipfix_field_name_to_id (name : String) : Option Nat :=
  if name = "octetDeltaCount" then some 1
  else if name = "packetDeltaCount" then some 2
  else if name = "deltaFlowCount" then some 3
  else if name = "protocolIdentifier" then some 4
  else if name = "ipClassOfService" then some 5
  else if name = "tcpControlBits" then some 6
  else if name = "sourceTransportPort" then some 7
  else if name = "sourceIPv4Address" then some 8
  else if name = "sourceIPv4PrefixLength" then some 9
  else if name = "ingressInterface" then some 10
  else if name = "destinationTransportPort" then some 11
  else if name = "destinationIPv4Address" then some 12
  else if name = "destinationIPv4PrefixLength" then some 13
  else if name = "egressInterface" then some 14
  else if name = "ipNextHopIPv4Address" then some 15
  else if name = "bgpSourceAsNumber" then some 16
  else if name = "bgpDestinationAsNumber" then some 17
  else if name = "bgpNextHopIPv4Address" then some 18
  else if name = "flowEndSysUpTime" then some 21
  else if name = "flowStartSysUpTime" then some 22
  else none

/-- `ipfix_field_id_to_name` (field_serializer.rs:80-104). -/
def ipfix_field_id_to_name (field_type : Nat) : String :=
  if field_type = 1 then "octet_delta_count"
  else if field_type = 2 then "packet_delta_count"
  else if field_type = 3 then "delta_flow_count"
  else if field_type = 4 then "protocol_identifier"
  else if field_type = 5 then "ip_class_of_service"
  else if field_type = 6 then "tcp_control_bits"
  else if field_type = 7 then "source_transport_port"
  else if field_type = 8 then "source_ipv4_address"
  else if field_type = 9 then "source_ipv4_prefix_length"
  else if field_type = 10 then "ingress_interface"
  else if field_type = 11 then "destination_transport_port"
  else if field_type = 12 then "destination_ipv4_address"
  else if field_type = 13 then "destination_ipv4_prefix_length"
  else if field_type = 14 then "egress_interface"
  else if field_type = 15 then "ip_next_hop_ipv4_address"
  else if field_type = 16 then "bgp_source_as_number"
  else if field_type = 17 then "bgp_destination_as_number"
  else if field_type = 18 then "bgp_next_hop_ipv4_address"
  else if field_type = 21 then "flow_end_sys_up_time"
  else if field_type = 22 then "flow_start_sys_up_time"
  else "unknown"

/-! ## v9 data model — `src/config/schema.rs` -/

/-- `V9TemplateField` / `IPFixTemplateField` (schema.rs): a field name and
its declared byte length (`u16`). -/
structure TemplateField where
  field_type : String
  field_length : Nat

/-- `V9FlowSet` (schema.rs:149-160); `IPFixFlowSet` is identical in shape. -/
inductive FlowSet where
  | template (template_id : Nat) (fields : List TemplateField)
  | data (template_id : Nat) (records : List YamlValue)

/-- `V9Header` (schema.rs:140-145), all fields optional. -/
structure V9Header where
  sys_up_time : Option Nat := none
  unix_secs : Option Nat := none
  sequence_number : Option Nat := none
  source_id : Option Nat := none

/-- `V9Config` (schema.rs:130-137). -/
structure V9Config where
  header : Option V9Header
  flowsets : List FlowSet

/-- The template-partition pass of `build_v9_packets` (v9.rs:29-48). -/
def extractTemplates (flowsets : List FlowSet) : List (Nat × List TemplateField) :=
  flowsets.filterMap (fun fs =>
    match fs with
    | .template tid fields => some (tid, fields)
    | .data _ _ => none)

/-- The data-partition pass of `build_v9_packets` (v9.rs:29-48). -/
def extractData (flowsets : List FlowSet) : List (Nat × List YamlValue) :=
  flowsets.filterMap (fun fs =>
    match fs with
    | .template _ _ => none
    | .data tid records => some (tid, records))

/-- The `templates.iter().find(|(id, _)| *id == template_id)` lookup
(v9.rs:67-76, ipfix.rs:52-61). -/
def lookupTemplate (templates : List (Nat × List TemplateField)) (template_id : Nat) :
    Option (List TemplateField) :=
  match templates.find? (fun t => t.1 = template_id) with
  | some t => some t.2
  | none => none

/-- `get_header_values` for v9 (v9.rs:107-144).  `SystemTime::now` is the
explicit `now` parameter (seconds since the epoch); `u32::try_from(now)
.unwrap_or(u32::MAX)` is `min now (2^32 - 1)`. -/
def v9_get_header_values (config : V9Config) (override_sequence_number : Option Nat)
    (now : Nat) : Nat × Nat × Nat × Nat :=
  let unix_secs :=
    match config.header with
    | some h => h.unix_secs.getD (min now (2^32 - 1))
    | none => min now (2^32 - 1)
  let sys_up_time :=
    match config.header with
    | some h => h.sys_up_time.getD 360000
    | none => 360000
  let sequence_number :=
    match override_sequence_number with
    | some s => s
    | none =>
      match config.header with
      | some h => h.sequence_number.getD 0
      | none => 0
  let source_id :=
    match config.header with
    | some h => h.source_id.getD 1
    | none => 1
  (sys_up_time, unix_secs, sequence_number, source_id)

/-! ## v9 packet builders — `src/generator/v9.rs` -/

/-- The 20-byte v9 message header (v9.rs:172-180 and 234-240): version 9,
flowset count, `sys_up_time`, `unix_secs`, `sequence_number`, `source_id`,
all big-endian. -/
def v9MsgHeader (count sysUp unixSecs seq srcId : Nat) : List Nat :=
  be16 9 ++ be16 count ++ be32 sysUp ++ be32 unixSecs ++ be32 seq ++ be32 srcId

/-- The per-field encoding loop of the v9 template flowset (v9.rs:199-205):
each field contributes `(type_id, length)` as two big-endian u16, and an
unknown field name fails the build. -/
def v9TemplateFieldBytes : List TemplateField → Except String (List Nat)
  | [] => .ok []
  | field :: rest => do
    match v9_field_name_to_id field.field_type with
    | none => .error ("Unknown field type: " ++ field.field_type)
    | some field_type => do
      let tail ← v9TemplateFieldBytes rest
      .ok (be16 field_type ++ be16 field.field_length ++ tail)

/-- One iteration of the template loop of `build_template_packet`
(v9.rs:183-218): append `flowset_id = 0`, a length placeholder, the template
id, the field count and the fields, then back-patch the 16-bit flowset
length (`packet.len() - length_pos + 2`). -/
def v9AddTemplate (packet : List Nat) (template_id : Nat)
    (fields : List TemplateField) : Except String (List Nat) := do
  let packet := packet ++ be16 0
  let length_pos := packet.length
  let packet := packet ++ be16 0
  let packet := packet ++ be16 template_id
  if fields.length ≥ 2^16 then .error "Too many fields in template (max 65535)"
  else do
    let packet := packet ++ be16 fields.length
    let fieldBytes ← v9TemplateFieldBytes fields
    let packet := packet ++ fieldBytes
    let flowset_length := packet.length - length_pos + 2
    if flowset_length ≥ 2^16 then .error "Flowset length overflow"
    else .ok (writeBe16At packet length_pos flowset_length)

/-- The template loop of `build_template_packet` folded over all templates. -/
def v9TemplateLoop (packet : List Nat) :
    List (Nat × List TemplateField) → Except String (List Nat)
  | [] => .ok packet
  | (tid, fields) :: rest => do
    let packet ← v9AddTemplate packet tid fields
    v9TemplateLoop packet rest

/-- `build_template_packet` (v9.rs:163-221): one v9 message holding every
template flowset of the entry; `count` is the number of templates. -/
def build_template_packet (sysUp unixSecs seq srcId : Nat)
    (templates : List (Nat × List TemplateField)) : Except String (List Nat) :=
  if templates.length ≥ 2^16 then .error "Too many templates (max 65535)"
  else v9TemplateLoop (v9MsgHeader templates.length sysUp unixSecs seq srcId) templates

/-- The per-record serialization loop of `build_data_packet` (v9.rs:250-265):
walk the template fields in order; unknown field names fail; a record value
is fetched under the canonical v9 key name, defaulting to the number 0. -/
def v9RecordBytes (fields : List TemplateField) (record : YamlValue) :
    Except String (List Nat) :=
  match fields with
  | [] => .ok []
  | field :: rest => do
    match v9_field_name_to_id field.field_type with
    | none => .error ("Unknown field type: " ++ field.field_type)
    | some field_type => do
      let field_name := v9_field_id_to_name field_type
      let value := (get_field_value record field_name).getD (YamlValue.numU 0)
      let tail ← v9RecordBytes rest record
      .ok (serialize_field_value value field.field_length ++ tail)

/-- All records of one data flowset serialized in order. -/
def v9RecordsBytes (fields : List TemplateField) :
    List YamlValue → Except String (List Nat)
  | [] => .ok []
  | record :: rest => do
    let bytes ← v9RecordBytes fields record
    let tail ← v9RecordsBytes fields rest
    .ok (bytes ++ tail)

/-- `build_data_packet` (v9.rs:223-291): header with count 1, then
`flowset_id = template_id`, a length placeholder at offset 22, the records,
zero padding to a 4-byte boundary, and the back-patched 16-bit length
`packet.len() - length_pos + 2`.  The source's padding while-loop pushes
single zero bytes until `(packet.len() - length_pos + 2) % 4 == 0`; with
`length_pos = 22` that condition is `(packet.length - 20) % 4 == 0` and the
loop's closed form is `List.replicate padLen 0` below. -/
def build_data_packet (sysUp unixSecs seq srcId template_id : Nat)
    (template_fields : List TemplateField) (records : List YamlValue) :
    Except String (List Nat) := do
  let header := v9MsgHeader 1 sysUp unixSecs seq srcId
  let packet := header ++ be16 template_id
  let length_pos := packet.length
  let packet := packet ++ be16 0
  let recBytes ← v9RecordsBytes template_fields records
  let packet := packet ++ recBytes
  let padLen := (4 - (packet.length - length_pos + 2) % 4) % 4
  let packet := packet ++ List.replicate padLen 0
  let flowset_length := packet.length - length_pos + 2
  if flowset_length ≥ 2^16 then .error "Flowset length overflow"
  else .ok (writeBe16At packet length_pos flowset_length)

/-- The data loop of `build_v9_packets` (v9.rs:65-96): for each data flowset
in order, look its template up (failing when undefined), build one data
message carrying the running sequence number, then advance the sequence by
the record count with `u32` checked arithmetic. -/
def v9DataLoop (sysUp unixSecs srcId : Nat)
    (templates : List (Nat × List TemplateField)) :
    List (Nat × List YamlValue) → Nat → Except String (List (List Nat) × Nat)
  | [], seq => .ok ([], seq)
  | (template_id, records) :: rest, seq => do
    match lookupTemplate templates template_id with
    | none =>
      .error ("Data flowset references undefined template ID: " ++ toString template_id)
    | some template_fields => do
      let pkt ← build_data_packet sysUp unixSecs seq srcId template_id
        template_fields records
      if records.length ≥ 2^32 then .error "Too many records (max 4294967295)"
      else if seq + records.length ≥ 2^32 then .error "Sequence number overflow"
      else do
        let (pkts, final) ← v9DataLoop sysUp unixSecs srcId templates rest
          (seq + records.length)
        .ok (pkt :: pkts, final)

/-- `build_v9_packets` (v9.rs:18-105): template message first (only when
`send_templates` and templates exist, without advancing the sequence), then
one data message per data flowset; an entry yielding no packets at all is a
generation error. -/
def build_v9_packets (config : V9Config) (override_sequence_number : Option Nat)
    (send_templates : Bool) (now : Nat) : Except String (List (List Nat) × Nat) := do
  let hv := v9_get_header_values config override_sequence_number now
  let sysUp := hv.1
  let unixSecs := hv.2.1
  let seq := hv.2.2.1
  let srcId := hv.2.2.2
  let templates := extractTemplates config.flowsets
  let data_flowsets := extractData config.flowsets
  let tpkts ← if templates.isEmpty = false ∧ send_templates = true then do
      let t ← build_template_packet sysUp unixSecs seq srcId templates
      pure [t]
    else pure []
  let res ← v9DataLoop sysUp unixSecs srcId templates data_flowsets seq
  let packets := tpkts ++ res.1
  if packets = [] then
    .error "V9 configuration must contain at least one template or data flowset"
  else .ok (packets, res.2)

/-! ## IPFIX data model and packet builders — `src/generator/ipfix.rs`

The flowset shape (`IPFixFlowSet`, schema.rs:189-202) is identical to the v9
one, so `FlowSet` and `TemplateField` are reused. -/

/-- `IPFixHeader` (schema.rs:182-187). -/
structure IPFixHeader where
  export_time : Option Nat := none
  sequence_number : Option Nat := none
  observation_domain_id : Option Nat := none

/-- `IPFixConfig` (schema.rs:172-180). -/
structure IPFixConfig where
  header : Option IPFixHeader
  flowsets : List FlowSet

/-- `get_header_values` for IPFIX (ipfix.rs:84-110): defaults are the wall
clock for `export_time`, 0 for the sequence number and 1 for the
observation domain. -/
def ipfix_get_header_values (config : IPFixConfig) (now : Nat) : Nat × Nat × Nat :=
  let export_time :=
    match config.header with
    | some h => h.export_time.getD (min now (2^32 - 1))
    | none => min now (2^32 - 1)
  let sequence_number :=
    match config.header with
    | some h => h.sequence_number.getD 0
    | none => 0
  let observation_domain_id :=
    match config.header with
    | some h => h.observation_domain_id.getD 1
    | none => 1
  (export_time, sequence_number, observation_domain_id)

/-- The 16-byte IPFIX message header (ipfix.rs:120-129 and 201-210): version
10, total length (patched later), `export_time`, `sequence_number`,
`observation_domain_id`. -/
def ipfixMsgHeader (totalLen exportTime seq domain : Nat) : List Nat :=
  be16 10 ++ be16 totalLen ++ be32 exportTime ++ be32 seq ++ be32 domain

/-- The per-field encoding loop of the IPFIX template set (ipfix.rs:148-154). -/
def ipfixTemplateFieldBytes : List TemplateField → Except String (List Nat)
  | [] => .ok []
  | field :: rest => do
    match ipfix_field_name_to_id field.field_type with
    | none => .error ("Unknown field type: " ++ field.field_type)
    | some field_type => do
      let tail ← ipfixTemplateFieldBytes rest
      .ok (be16 field_type ++ be16 field.field_length ++ tail)

/-- One iteration of the template loop of the IPFIX `build_template_packet`
(ipfix.rs:132-178): append `set_id = 2`, a length placeholder, the template
id, the field count and the fields, zero-pad the set to a 4-byte boundary
(the source's while-loop pushes single zeros until
`(packet.len() - set_length_pos + 2) % 4 == 0`; `List.replicate padLen 0`
is its closed form), then back-patch the 16-bit set length. -/
def ipfixAddTemplate (packet : List Nat) (template_id : Nat)
    (fields : List TemplateField) : Except String (List Nat) := do
  let packet := packet ++ be16 2
  let set_length_pos := packet.length
  let packet := packet ++ be16 0
  let packet := packet ++ be16 template_id
  if fields.length ≥ 2^16 then .error "Too many fields in template (max 65535)"
  else do
    let packet := packet ++ be16 fields.length
    let fieldBytes ← ipfixTemplateFieldBytes fields
    let packet := packet ++ fieldBytes
    let padLen := (4 - (packet.length - set_length_pos + 2) % 4) % 4
    let packet := packet ++ List.replicate padLen 0
    let set_length := packet.length - set_length_pos + 2
    if set_length ≥ 2^16 then .error "Set length overflow"
    else .ok (writeBe16At packet set_length_pos set_length)

/-- The template loop of the IPFIX `build_template_packet`. -/
def ipfixTemplateLoop (packet : List Nat) :
    List (Nat × List TemplateField) → Except String (List Nat)
  | [] => .ok packet
  | (tid, fields) :: rest => do
    let packet ← ipfixAddTemplate packet tid fields
    ipfixTemplateLoop packet rest

/-- `build_template_packet` for IPFIX (ipfix.rs:112-189): header with a
length placeholder at offset 2, every template set, then the total message
length back-patched over the whole message. -/
def ipfix_build_template_packet (exportTime seq domain : Nat)
    (templates : List (Nat × List TemplateField)) : Except String (List Nat) := do
  let packet := ipfixMsgHeader 0 exportTime seq domain
  let packet ← ipfixTemplateLoop packet templates
  if packet.length ≥ 2^16 then .error "Packet length exceeds u16::MAX"
  else .ok (writeBe16At packet 2 packet.length)

/-- The per-record serialization loop of the IPFIX `build_data_packet`
(ipfix.rs:220-235), using the IPFIX registry and canonical key names. -/
def ipfixRecordBytes (fields : List TemplateField) (record : YamlValue) :
    Except String (List Nat) :=
  match fields with
  | [] => .ok []
  | field :: rest => do
    match ipfix_field_name_to_id field.field_type with
    | none => .error ("Unknown field type: " ++ field.field_type)
    | some field_type => do
      let field_name := ipfix_field_id_to_name field_type
      let value := (get_field_value record field_name).getD (YamlValue.numU 0)
      let tail ← ipfixRecordBytes rest record
      .ok (serialize_field_value value field.field_length ++ tail)

/-- All records of one IPFIX data set serialized in order. -/
def ipfixRecordsBytes (fields : List TemplateField) :
    List YamlValue → Except String (List Nat)
  | [] => .ok []
  | record :: rest => do
    let bytes ← ipfixRecordBytes fields record
    let tail ← ipfixRecordsBytes fields rest
    .ok (bytes ++ tail)

/-- `build_data_packet` for IPFIX (ipfix.rs:191-269): header with a length
placeholder at offset 2, `set_id = template_id` at offset 16, a set length
placeholder at offset 18, the records, zero padding to a 4-byte boundary
(closed form of the source's while-loop on
`(packet.len() - set_length_pos + 2) % 4`), the back-patched 16-bit set
length `packet.len() - set_length_pos + 2`, and finally the back-patched
total message length. -/
def ipfix_build_data_packet (exportTime seq domain template_id : Nat)
    (template_fields : List TemplateField) (records : List YamlValue) :
    Except String (List Nat) := do
  let header := ipfixMsgHeader 0 exportTime seq domain
  let packet := header ++ be16 template_id
  let set_length_pos := packet.length
  let packet := packet ++ be16 0
  let recBytes ← ipfixRecordsBytes template_fields records
  let packet := packet ++ recBytes
  let padLen := (4 - (packet.length - set_length_pos + 2) % 4) % 4
  let packet := packet ++ List.replicate padLen 0
  let set_length := packet.length - set_length_pos + 2
  if set_length ≥ 2^16 then .error "Set length overflow"
  else do
    let packet := writeBe16At packet set_length_pos set_length
    if packet.length ≥ 2^16 then .error "Packet length exceeds u16::MAX"
    else .ok (writeBe16At packet 2 packet.length)

/-- The data loop of `build_ipfix_packets` (ipfix.rs:50-73): the source
draft advances the sequence number by exactly 1 per data packet (not by the
record count); `+ 1` is reduced modulo `2^32` as Rust `u32` addition. -/
def ipfixDataLoop (exportTime domain : Nat)
    (templates : List (Nat × List TemplateField)) :
    List (Nat × List YamlValue) → Nat → Except String (List (List Nat))
  | [], _ => .ok []
  | (template_id, records) :: rest, seq => do
    match lookupTemplate templates template_id with
    | none =>
      .error ("Data flowset references undefined template ID: " ++ toString template_id)
    | some template_fields => do
      let pkt ← ipfix_build_data_packet exportTime seq domain template_id
        template_fields records
      let pkts ← ipfixDataLoop exportTime domain templates rest ((seq + 1) % 2^32)
      .ok (pkt :: pkts)

/-- `build_ipfix_packets` (ipfix.rs:10-82): the sequence number comes from
the configuration header (default 0); the template message, when templates
exist, is built first and the draft then advances the sequence by 1
(ipfix.rs:46); each data set advances it by another 1 (ipfix.rs:72); an
entry yielding no packets is a generation error. -/
def build_ipfix_packets (config : IPFixConfig) (now : Nat) :
    Except String (List (List Nat)) := do
  let (exportTime, seq0, domain) := ipfix_get_header_values config now
  let templates := extractTemplates config.flowsets
  let data_flowsets := extractData config.flowsets
  let (tpkts, seq) ← if templates.isEmpty = false then do
      let t ← ipfix_build_template_packet exportTime seq0 domain templates
      pure ([t], (seq0 + 1) % 2^32)
    else pure ([], seq0)
  let dpkts ← ipfixDataLoop exportTime domain templates data_flowsets seq
  let packets := tpkts ++ dpkts
  if packets = [] then
    .error "IPFIX configuration must contain at least one template or data flowset"
  else .ok packets

/-! ## v5 data model and packet builder — `src/generator/v5.rs`, `src/main.rs` -/

/-- An IPv4 address as its four octets (Rust `Ipv4Addr`); each octet is a
`u8` value. -/
structure Ipv4 where
  o0 : Nat
  o1 : Nat
  o2 : Nat
  o3 : Nat

/-- `Ipv4Addr::octets()`. -/
def Ipv4.octets (a : Ipv4) : List Nat := [a.o0, a.o1, a.o2, a.o3]

/-- `V5Header` (schema.rs:45-53), all fields optional. -/
structure V5Header where
  unix_secs : Option Nat := none
  unix_nsecs : Option Nat := none
  sys_up_time : Option Nat := none
  flow_sequence : Option Nat := none
  engine_type : Option Nat := none
  engine_id : Option Nat := none
  sampling_interval : Option Nat := none

/-- `V5FlowSet` (schema.rs:56-75): the 18 scalar fields of one v5 record. -/
structure V5FlowSet where
  src_addr : Ipv4
  dst_addr : Ipv4
  next_hop : Ipv4
  input : Nat
  output : Nat
  d_pkts : Nat
  d_octets : Nat
  first : Nat
  last : Nat
  src_port : Nat
  dst_port : Nat
  tcp_flags : Nat
  protocol : Nat
  tos : Nat
  src_as : Nat
  dst_as : Nat
  src_mask : Nat
  dst_mask : Nat

/-- `V5Config` (schema.rs:35-42). -/
structure V5Config where
  header : Option V5Header
  flowsets : List V5FlowSet

/-- Modelled from the spec: the 24-byte big-endian v5 header emitted by the
`netflow_parser` crate's `V5::to_be_bytes` (the crate is external to this
repository); the layout is spec §4.1 — version, count, `sys_up_time`,
`unix_secs`, `unix_nsecs`, `flow_sequence`, `engine_type`, `engine_id`,
`sampling_interval`. -/
def v5HeaderBytes (count sysUp unixSecs unixNsecs flowSeq engineType engineId
    samplingInterval : Nat) : List Nat :=
  be16 5 ++ be16 count ++ be32 sysUp ++ be32 unixSecs ++ be32 unixNsecs ++
  be32 flowSeq ++ [engineType % 2^8, engineId % 2^8] ++ be16 samplingInterval

/-- Modelled from the spec: the 48-byte big-endian v5 record of
`V5::to_be_bytes` (external `netflow_parser` crate), spec §4.1 — the 18
fields in the exact v5 layout with a 1-byte pad after `tcp_flags` and a
2-byte pad at the end. -/
def v5RecordBytes (fs : V5FlowSet) : List Nat :=
  fs.src_addr.octets ++ fs.dst_addr.octets ++ fs.next_hop.octets ++
  be16 fs.input ++ be16 fs.output ++ be32 fs.d_pkts ++ be32 fs.d_octets ++
  be32 fs.first ++ be32 fs.last ++ be16 fs.src_port ++ be16 fs.dst_port ++
  [0, fs.tcp_flags % 2^8, fs.protocol % 2^8, fs.tos % 2^8] ++
  be16 fs.src_as ++ be16 fs.dst_as ++
  [fs.src_mask % 2^8, fs.dst_mask % 2^8, 0, 0]

/-- `build_header` (v5.rs:53-116) with the sequence override.  Modelled from
the spec: src/main.rs:480 calls a two-argument
`build_v5_packet(config, Some(current_seq))` that is absent from src/ (the
v5.rs in src/ is a one-argument draft taking `flow_sequence` from the
configuration header); per spec §4.1 and §4.6 the passed sequence number
becomes the header's `flow_sequence`, overriding the configuration value
exactly as `override_sequence_number` does in `build_v9_packets`.  All other
defaults follow v5.rs:53-116. -/
def v5_build_header (config : V5Config) (override_flow_sequence : Option Nat)
    (now : Nat) : Except String (List Nat) :=
  if config.flowsets.length ≥ 2^16 then .error "Too many flowsets (max 65535)"
  else
    let unix_secs :=
      match config.header with
      | some h => h.unix_secs.getD (min now (2^32 - 1))
      | none => min now (2^32 - 1)
    let unix_nsecs :=
      match config.header with
      | some h => h.unix_nsecs.getD 0
      | none => 0
    let sys_up_time :=
      match config.header with
      | some h => h.sys_up_time.getD 360000
      | none => 360000
    let flow_sequence :=
      match override_flow_sequence with
      | some s => s
      | none =>
        match config.header with
        | some h => h.flow_sequence.getD 0
        | none => 0
    let engine_type :=
      match config.header with
      | some h => h.engine_type.getD 0
      | none => 0
    let engine_id :=
      match config.header with
      | some h => h.engine_id.getD 0
      | none => 0
    let sampling_interval :=
      match config.header with
      | some h => h.sampling_interval.getD 0
      | none => 0
    .ok (v5HeaderBytes config.flowsets.length sys_up_time unix_secs unix_nsecs
      flow_sequence engine_type engine_id sampling_interval)

/-- `build_v5_packet` (v5.rs:7-51) with the sequence override of the
two-argument form called from src/main.rs:480 (see `v5_build_header`):
an empty flowset list fails, otherwise one buffer of
`24 + 48 * count` bytes is emitted. -/
def build_v5_packet (config : V5Config) (override_flow_sequence : Option Nat)
    (now : Nat) : Except String (List Nat) := do
  if config.flowsets.isEmpty then
    .error "V5 configuration must contain at least one flowset"
  else do
    let header ← v5_build_header config override_flow_sequence now
    .ok (header ++ (config.flowsets.map v5RecordBytes).flatten)

/-- The v5 arm of `process_exporter_group` (src/main.rs:476-490): build one
packet with the current sequence number, then advance the sequence by the
number of flow records with `u32` checked arithmetic. -/
def v5_step (config : V5Config) (seq : Nat) (now : Nat) :
    Except String (List Nat × Nat) := do
  let packet ← build_v5_packet config (some seq) now
  if config.flowsets.length ≥ 2^32 then .error "Too many V5 flowsets"
  else if seq + config.flowsets.length ≥ 2^32 then .error "Sequence number overflow"
  else .ok (packet, seq + config.flowsets.length)

/-! ## Configuration validation — `src/config/validator.rs` -/

/-- `V7FlowSet` (schema.rs:100-123). -/
structure V7FlowSet where
  src_addr : Ipv4
  dst_addr : Ipv4
  next_hop : Ipv4
  input : Nat
  output : Nat
  d_pkts : Nat
  d_octets : Nat
  first : Nat
  last : Nat
  src_port : Nat
  dst_port : Nat
  flags : Nat
  tcp_flags : Nat
  protocol : Nat
  tos : Nat
  src_as : Nat
  dst_as : Nat
  src_mask : Nat
  dst_mask : Nat
  flags2 : Nat
  router_src : Ipv4

/-- `V7Header` (schema.rs:92-98). -/
structure V7Header where
  unix_secs : Option Nat := none
  unix_nsecs : Option Nat := none
  sys_up_time : Option Nat := none
  flow_sequence : Option Nat := none
  reserved : Option Nat := none

/-- `V7Config` (schema.rs:82-89). -/
structure V7Config where
  header : Option V7Header
  flowsets : List V7FlowSet

/-- `FlowConfig` (schema.rs:17-28): the tagged flow-entry variant. -/
inductive FlowConfig where
  | v5 (config : V5Config)
  | v7 (config : V7Config)
  | v9 (config : V9Config)
  | ipfix (config : IPFixConfig)

/-- `Destination` (schema.rs:214-221). -/
structure Destination where
  ip : String
  port : Nat

/-- `Config` (schema.rs:5-14). -/
structure Config where
  flows : List FlowConfig
  destination : Destination

/-- Hexadecimal digit test for IPv6 groups. -/
def isHexDigit (c : Char) : Bool :=
  c.isDigit || ('a' ≤ c && c ≤ 'f') || ('A' ≤ c && c ≤ 'F')

/-- A valid IPv6 `h16` group: one to four hexadecimal digits. -/
def validH16 (g : List Char) : Bool :=
  !g.isEmpty && g.length ≤ 4 && g.all isHexDigit

/-- Acceptor for Rust's `Ipv6Addr` textual form: eight colon-separated `h16`
groups, or fewer with a single `::` gap (leading, trailing, or in the
middle).  The embedded-IPv4 tail form (`::ffff:1.2.3.4`) is not modelled;
no claim involves it. -/
def parseIpv6 (cs : List Char) : Bool :=
  if cs = [':', ':'] then true
  else if cs.take 2 = [':', ':'] then
    let parts := splitOn ':' (cs.drop 2)
    parts.length ≤ 7 && parts.all validH16
  else if 3 ≤ cs.length ∧ cs.drop (cs.length - 2) = [':', ':'] then
    let parts := splitOn ':' (cs.take (cs.length - 2))
    parts.length ≤ 7 && parts.all validH16
  else
    let parts := splitOn ':' cs
    if parts.all (fun g => !g.isEmpty) then
      parts.length = 8 && parts.all validH16
    else
      parts.count [] = 1 && parts.headD [] ≠ [] &&
      parts.getLastD [] ≠ [] && parts.length ≤ 8 &&
      parts.all (fun g => g.isEmpty || validH16 g)

/-- Rust `dest.ip.parse::<std::net::IpAddr>().is_err()` test
(validator.rs:22): the string parses as an IPv4 or an IPv6 address. -/
def ip_addr_parses (s : String) : Bool :=
  (parseIpv4 s.data).isSome || parseIpv6 s.data

/-- `validate_config` (validator.rs:5-32): reject an empty flow list, then
reject a destination whose `ip` string parses as neither IPv4 nor IPv6;
nothing else is checked. -/
def validate_config (config : Config) : Except String Unit :=
  if config.flows.isEmpty then
    .error "Configuration must contain at least one flow"
  else if ip_addr_parses config.destination.ip = false then
    .error ("Invalid IP address: " ++ config.destination.ip)
  else .ok ()

/-! ## Capture-frame builder and IPv4 checksum — `src/transmitter/udp.rs` -/

/-- The 16-bit-word summing loop of `calculate_checksum` (udp.rs:322-332):
big-endian words over 2-byte chunks, an odd final byte padded with zero,
accumulated with `u32` checked addition. -/
def sumWords : List Nat → Nat → Except String Nat
  | [], sum => .ok sum
  | [b] , sum =>
    if sum + b * 2^8 ≥ 2^32 then .error "Checksum calculation overflow"
    else .ok (sum + b * 2^8)
  | b0 :: b1 :: rest, sum =>
    if sum + (b0 * 2^8 + b1) ≥ 2^32 then .error "Checksum calculation overflow"
    else sumWords rest (sum + (b0 * 2^8 + b1))

/-- The carry-folding loop of `calculate_checksum` (udp.rs:335-341):
`while sum >> 16 != 0 { sum = (sum & 0xFFFF) + (sum >> 16) }`.  Each
iteration strictly decreases `sum`, so `fuel` iterations with
`fuel = sum` always reach the fixpoint (see `foldCarry_lt`); the structural
fuel makes the definition kernel-reducible.  The loop body's checked
addition cannot overflow (both summands are below `2^16`). -/
def foldCarryN : Nat → Nat → Nat
  | 0, sum => sum
  | fuel + 1, sum =>
    if sum < 2^16 then sum
    else foldCarryN fuel (sum % 2^16 + sum / 2^16)

/-- The folded one's-complement sum. -/
def foldCarry (sum : Nat) : Nat := foldCarryN sum sum

/-- `calculate_checksum` (udp.rs:319-348): sum the 16-bit words, fold the
carries, and return the bitwise NOT (`!x` on `u16` is `65535 - x`; the
final `u16::try_from` cannot fail because the loop's exit condition gives
`sum < 2^16`). -/
def calculate_checksum (data : List Nat) : Except String Nat := do
  let sum ← sumWords data 0
  .ok (2^16 - 1 - foldCarry sum)

/-- `build_udp_packet` (udp.rs:247-316): 14-byte Ethernet header, 20-byte
IPv4 header whose checksum is computed over `packet[14..34]` with the
checksum field zero and patched at offsets 24-25, 8-byte UDP header with
zero checksum, then the NetFlow payload.  The destination is an IPv4 socket
address (the source rejects `SocketAddr::V6` before building).  The two
`usize` length overflow checks of the source collapse into the `u16` bound
checks (`Nat` does not overflow). -/
def build_udp_packet (src_ip : Ipv4) (src_port : Nat) (dest_ip : Ipv4)
    (dest_port : Nat) (payload : List Nat) : Except String (List Nat) := do
  let packet : List Nat :=
    [0x00, 0x00, 0x00, 0x00, 0x00, 0x02] ++
    [0x00, 0x00, 0x00, 0x00, 0x00, 0x01] ++
    [0x08, 0x00]
  if 20 + 8 + payload.length ≥ 2^16 then
    .error "IP total length exceeds u16::MAX"
  else do
    let ip_total_length := 20 + 8 + payload.length
    let packet := packet ++ [0x45, 0x00] ++ be16 ip_total_length ++
      [0x00, 0x00] ++ [0x40, 0x00] ++ [64, 17] ++ [0x00, 0x00] ++
      src_ip.octets ++ dest_ip.octets
    let ip_checksum ← calculate_checksum ((packet.drop 14).take 20)
    let packet := writeBe16At packet 24 ip_checksum
    if 8 + payload.length ≥ 2^16 then .error "UDP length exceeds u16::MAX"
    else do
      let udp_length := 8 + payload.length
      let packet := packet ++ be16 src_port ++ be16 dest_port ++
        be16 udp_length ++ [0x00, 0x00]
      .ok (packet ++ payload)

/-- The plain (unchecked) 16-bit big-endian word sum of a byte list. -/
def wordSumPure : List Nat → Nat
  | [] => 0
  | [b] => b * 2^8
  | b0 :: b1 :: rest => (b0 * 2^8 + b1) + wordSumPure rest

/-- The per-data-flowset record count sum. -/
def recordSum (data : List (Nat × List YamlValue)) : Nat :=
  (data.map (fun d => d.2.length)).sum

/-! ## Generic byte-buffer lemmas -/

theorem be16_length (n : Nat) : (be16 n).length = 2 := rfl

theorem be32_length (n : Nat) : (be32 n).length = 4 := rfl

theorem writeBe16At_append_of_le (l1 l2 : List Nat) (pos v : Nat)
    (h : l1.length ≤ pos) :
    writeBe16At (l1 ++ l2) pos v = l1 ++ writeBe16At l2 (pos - l1.length) v := by
  unfold writeBe16At
  rw [List.take_append_eq_append_take, List.drop_append_eq_append_drop,
    List.take_of_length_le h,
    List.drop_eq_nil_of_le (show l1.length ≤ pos + 2 by omega)]
  have h2 : pos + 2 - l1.length = pos - l1.length + 2 := by omega
  simp [h2]

theorem writeBe16At_zero (l : List Nat) (v : Nat) :
    writeBe16At l 0 v = be16 v ++ l.drop 2 := by
  simp [writeBe16At]


theorem readBe16_at_len : ∀ (l1 l2 : List Nat) (v : Nat),
    readBe16 (l1 ++ (be16 v ++ l2)) l1.length = v % 2^16
  | [], l2, v => by
    simp [readBe16, be16]
    omega
  | x :: l1, l2, v => by
    simp only [List.cons_append, List.length_cons, readBe16, List.getD_cons_succ]
    exact readBe16_at_len l1 l2 v

theorem readBe16_at_append (l1 l2 : List Nat) (pos v : Nat) (h : l1.length = pos) :
    readBe16 (l1 ++ (be16 v ++ l2)) pos = v % 2^16 := by
  subst h; exact readBe16_at_len l1 l2 v

theorem readBe32_at_len : ∀ (l1 l2 : List Nat) (v : Nat),
    readBe32 (l1 ++ (be32 v ++ l2)) l1.length = v % 2^32
  | [], l2, v => by
    simp [readBe32, be32]
    omega
  | x :: l1, l2, v => by
    simp only [List.cons_append, List.length_cons, readBe32, List.getD_cons_succ]
    exact readBe32_at_len l1 l2 v

theorem readBe32_at_append (l1 l2 : List Nat) (pos v : Nat) (h : l1.length = pos) :
    readBe32 (l1 ++ (be32 v ++ l2)) pos = v % 2^32 := by
  subst h; exact readBe32_at_len l1 l2 v

/-! ## Carry-fold lemmas for the IPv4 checksum -/

theorem foldCarryN_mod (fuel s : Nat) : foldCarryN fuel s % 65535 = s % 65535 := by
  induction fuel generalizing s with
  | zero => rfl
  | succ fuel ih =>
    unfold foldCarryN
    split
    · rfl
    · rw [ih]; omega

theorem foldCarryN_le_self (fuel s : Nat) : foldCarryN fuel s ≤ s := by
  induction fuel generalizing s with
  | zero => exact Nat.le_refl s
  | succ fuel ih =>
    unfold foldCarryN
    split
    · exact Nat.le_refl s
    · exact Nat.le_trans (ih _) (by omega)

theorem foldCarryN_pos (fuel s : Nat) (h : 0 < s) : 0 < foldCarryN fuel s := by
  induction fuel generalizing s with
  | zero => exact h
  | succ fuel ih =>
    unfold foldCarryN
    split
    · exact h
    · exact ih _ (by omega)

theorem foldCarryN_lt (fuel s : Nat) (h : s ≤ fuel) : foldCarryN fuel s < 2^16 := by
  induction fuel generalizing s with
  | zero =>
    have : s = 0 := by omega
    subst this
    exact Nat.pos_pow_of_pos 16 (by omega)
  | succ fuel ih =>
    unfold foldCarryN
    split
    · assumption
    · exact ih _ (by omega)

theorem foldCarry_lt (s : Nat) : foldCarry s < 2^16 :=
  foldCarryN_lt s s (Nat.le_refl s)

theorem foldCarry_mod (s : Nat) : foldCarry s % 65535 = s % 65535 :=
  foldCarryN_mod s s

theorem foldCarry_le_self (s : Nat) : foldCarry s ≤ s :=
  foldCarryN_le_self s s

/-- A positive multiple of `65535` folds to exactly `65535`. -/
theorem foldCarry_of_multiple (s : Nat) (hmod : s % 65535 = 0) (hpos : 0 < s) :
    foldCarry s = 65535 := by
  have h1 := foldCarry_lt s
  have h2 := foldCarry_mod s
  have h3 := foldCarryN_pos s s hpos
  unfold foldCarry at *
  omega

/-- The defining identity of the Internet checksum: adding the complement of
the folded sum back into the sum folds to `0xFFFF`. -/
theorem foldCarry_checksum_round (s : Nat) :
    foldCarry (s + (2^16 - 1 - foldCarry s)) = 2^16 - 1 := by
  have hle := foldCarry_le_self s
  have hlt := foldCarry_lt s
  have hmod := foldCarry_mod s
  have h1 : (s + (2^16 - 1 - foldCarry s)) % 65535 = 0 := by omega
  have h2 : 0 < s + (2^16 - 1 - foldCarry s) := by omega
  have := foldCarry_of_multiple _ h1 h2
  omega

/-! ## Word-sum lemmas for the IPv4 checksum -/

theorem sumWords_ok : ∀ (data : List Nat) (acc : Nat),
    acc + wordSumPure data < 2^32 → sumWords data acc = .ok (acc + wordSumPure data)
  | [], acc, _ => by simp [sumWords, wordSumPure]
  | [b], acc, h => by
    simp only [sumWords, wordSumPure] at *
    rw [if_neg (by omega)]
  | b0 :: b1 :: rest, acc, h => by
    simp only [sumWords, wordSumPure] at *
    rw [if_neg (by omega), sumWords_ok rest (acc + (b0 * 2^8 + b1)) (by omega)]
    congr 1
    omega

theorem wordSumPure_le : ∀ (data : List Nat), (∀ b ∈ data, b < 2^8) →
    wordSumPure data ≤ 65535 * data.length
  | [], _ => by simp [wordSumPure]
  | [b], h => by
    have := h b (by simp)
    simp [wordSumPure]
    omega
  | b0 :: b1 :: rest, h => by
    have h0 := h b0 (by simp)
    have h1 := h b1 (by simp)
    have hr := wordSumPure_le rest (fun b hb => h b (by simp [hb]))
    simp only [wordSumPure, List.length_cons]
    omega

/-- Appending after an even-length prefix splits the word sum. -/
theorem wordSumPure_append : ∀ (l1 l2 : List Nat), l1.length % 2 = 0 →
    wordSumPure (l1 ++ l2) = wordSumPure l1 + wordSumPure l2
  | [], l2, _ => by simp [wordSumPure]
  | [_], _, h => by simp at h
  | b0 :: b1 :: rest, l2, h => by
    show (b0 * 2^8 + b1) + wordSumPure (rest ++ l2) = _
    rw [wordSumPure_append rest l2 (by simp only [List.length_cons] at h; omega)]
    simp only [wordSumPure]
    omega

/-! ## Structural lemmas about the v9 builders -/

theorem v9MsgHeader_length (count s u q i : Nat) :
    (v9MsgHeader count s u q i).length = 20 := by
  simp [v9MsgHeader, be16, be32]

/-- Inversion of `build_data_packet`: a successful build is the 20-byte
header, the flowset id, the back-patched length, the record bytes and the
zero padding, with the length and padding arithmetic exposed. -/
theorem build_data_packet_structure (s u q i tid : Nat)
    (fields : List TemplateField) (records : List YamlValue) (pkt : List Nat)
    (hok : build_data_packet s u q i tid fields records = .ok pkt) :
    ∃ rb pl, v9RecordsBytes fields records = .ok rb ∧
      pl < 4 ∧ (4 + rb.length + pl) % 4 = 0 ∧ 4 + rb.length + pl < 2^16 ∧
      pkt = v9MsgHeader 1 s u q i ++ (be16 tid ++ (be16 (4 + rb.length + pl) ++
        (rb ++ List.replicate pl 0))) := by
  unfold build_data_packet at hok
  cases hrb : v9RecordsBytes fields records with
  | error e => rw [hrb] at hok; exact absurd hok (by simp [Bind.bind, Except.bind])
  | ok rb =>
    rw [hrb] at hok
    simp only [Bind.bind, Except.bind] at hok
    have hlen1 : (v9MsgHeader 1 s u q i ++ be16 tid).length = 22 := by
      simp [v9MsgHeader_length, be16_length]
    rw [hlen1] at hok
    have hlen2 : ((v9MsgHeader 1 s u q i ++ be16 tid) ++ be16 0 ++ rb).length
        = 24 + rb.length := by
      simp [v9MsgHeader_length, be16_length]
      omega
    rw [hlen2] at hok
    set pl := (4 - (24 + rb.length - 22 + 2) % 4) % 4 with hpl
    have hlen3 : (((v9MsgHeader 1 s u q i ++ be16 tid) ++ be16 0 ++ rb) ++
        List.replicate pl 0).length = 24 + rb.length + pl := by
      simp [v9MsgHeader_length, be16_length]
      omega
    rw [hlen3] at hok
    split at hok
    · exact absurd hok (by simp)
    · refine ⟨rb, pl, rfl, by omega, by omega, by omega, ?_⟩
      have hfl : 24 + rb.length + pl - 22 + 2 = 4 + rb.length + pl := by omega
      rw [hfl] at hok
      have heq :
          ((v9MsgHeader 1 s u q i ++ be16 tid) ++ be16 0 ++ rb) ++
            List.replicate pl 0
          = (v9MsgHeader 1 s u q i ++ be16 tid) ++
            (be16 0 ++ (rb ++ List.replicate pl 0)) := by
        simp [List.append_assoc]
      rw [heq, writeBe16At_append_of_le _ _ _ _ (by rw [hlen1]), hlen1] at hok
      simp only [Nat.sub_self, writeBe16At_zero] at hok
      have hdrop : (be16 0 ++ (rb ++ List.replicate pl 0)).drop 2
          = rb ++ List.replicate pl 0 := by
        simp [be16]
      rw [hdrop] at hok
      injection hok with hok
      rw [← hok]
      simp [List.append_assoc]

/-- `v9AddTemplate` only appends and patches beyond the existing packet. -/
theorem v9AddTemplate_prefix (packet : List Nat) (tid : Nat)
    (fields : List TemplateField) (out : List Nat)
    (hok : v9AddTemplate packet tid fields = .ok out) :
    ∃ ext, out = packet ++ ext := by
  unfold v9AddTemplate at hok
  split at hok
  · exact absurd hok (by simp)
  · cases hfb : v9TemplateFieldBytes fields with
    | error e => rw [hfb] at hok; exact absurd hok (by simp [Bind.bind, Except.bind])
    | ok fb =>
      rw [hfb] at hok
      simp only [Bind.bind, Except.bind] at hok
      split at hok
      · exact absurd hok (by simp)
      · injection hok with hok
        rw [← hok]
        have heq : packet ++ be16 0 ++ be16 0 ++ be16 tid ++ be16 fields.length ++ fb
            = packet ++ (be16 0 ++ (be16 0 ++ be16 tid ++ be16 fields.length ++ fb)) := by
          simp [List.append_assoc]
        rw [heq, writeBe16At_append_of_le _ _ _ _ (by simp [be16_length])]
        exact ⟨_, rfl⟩

/-- The template loop only extends the packet it is given. -/
theorem v9TemplateLoop_prefix :
    ∀ (ts : List (Nat × List TemplateField)) (packet out : List Nat),
    v9TemplateLoop packet ts = .ok out → ∃ ext, out = packet ++ ext
  | [], packet, out, hok => by
    simp only [v9TemplateLoop] at hok
    injection hok with hok
    exact ⟨[], by simp [hok]⟩
  | (tid, fields) :: rest, packet, out, hok => by
    simp only [v9TemplateLoop] at hok
    cases hadd : v9AddTemplate packet tid fields with
    | error e => rw [hadd] at hok; exact absurd hok (by simp [Bind.bind, Except.bind])
    | ok packet2 =>
      rw [hadd] at hok
      simp only [Bind.bind, Except.bind] at hok
      obtain ⟨ext1, h1⟩ := v9AddTemplate_prefix packet tid fields packet2 hadd
      obtain ⟨ext2, h2⟩ := v9TemplateLoop_prefix rest packet2 out hok
      exact ⟨ext1 ++ ext2, by rw [h2, h1, List.append_assoc]⟩

/-- A successful v9 template message starts with the 20-byte header carrying
the given (unadvanced) sequence number. -/
theorem build_template_packet_prefix (s u q i : Nat)
    (templates : List (Nat × List TemplateField)) (out : List Nat)
    (hok : build_template_packet s u q i templates = .ok out) :
    ∃ ext, out = v9MsgHeader templates.length s u q i ++ ext := by
  unfold build_template_packet at hok
  split at hok
  · exact absurd hok (by simp)
  · exact v9TemplateLoop_prefix templates _ out hok

/-- The sequence field (offset 12) of a packet starting with a v9 header. -/
theorem v9_header_seq_field (count s u q i : Nat) (ext : List Nat) :
    readBe32 (v9MsgHeader count s u q i ++ ext) 12 = q % 2^32 := by
  have heq : v9MsgHeader count s u q i ++ ext
      = (be16 9 ++ be16 count ++ be32 s ++ be32 u) ++ (be32 q ++ (be32 i ++ ext)) := by
    simp [v9MsgHeader, List.append_assoc]
  rw [heq]
  exact readBe32_at_append _ _ 12 q (by simp [be16_length, be32_length])

/-- Full characterization of the v9 data loop: the final sequence is the
initial one plus the total record count, one message is emitted per data
flowset, and the j-th message carries the running sequence number
`seq + recordSum (data.take j)` in its header. -/
theorem v9DataLoop_spec :
    ∀ (data : List (Nat × List YamlValue)) (s u i seq : Nat)
      (tpl : List (Nat × List TemplateField)) (pkts : List (List Nat)) (fin : Nat),
    seq < 2^32 →
    v9DataLoop s u i tpl data seq = .ok (pkts, fin) →
    fin = seq + recordSum data ∧ fin < 2^32 ∧ pkts.length = data.length ∧
    (∀ j, j < data.length →
      seq + recordSum (data.take j) < 2^32 ∧
      readBe32 (pkts.getD j []) 12 = seq + recordSum (data.take j))
  | [], s, u, i, seq, tpl, pkts, fin, hseq, hok => by
    simp only [v9DataLoop] at hok
    injection hok with hok
    injection hok with h1 h2
    subst h1; subst h2
    refine ⟨by simp [recordSum], by simpa, rfl, ?_⟩
    intro j hj
    exact absurd hj (by simp)
  | (tid, records) :: rest, s, u, i, seq, tpl, pkts, fin, hseq, hok => by
    simp only [v9DataLoop] at hok
    split at hok
    · exact absurd hok (by simp)
    · rename_i fields hlk
      cases hbd : build_data_packet s u seq i tid fields records with
      | error e => rw [hbd] at hok; exact absurd hok (by simp [Bind.bind, Except.bind])
      | ok pkt =>
        rw [hbd] at hok
        simp only [Bind.bind, Except.bind] at hok
        split at hok
        · exact absurd hok (by simp)
        · split at hok
          · exact absurd hok (by simp)
          · rename_i hrec hover
            cases hrest : v9DataLoop s u i tpl rest (seq + records.length) with
            | error e =>
              rw [hrest] at hok; exact absurd hok (by simp [Bind.bind, Except.bind])
            | ok res =>
              obtain ⟨pkts', fin'⟩ := res
              rw [hrest] at hok
              simp only [Bind.bind, Except.bind] at hok
              injection hok with hok
              injection hok with h1 h2
              subst h2
              have ih := v9DataLoop_spec rest s u i (seq + records.length) tpl
                pkts' fin' (by omega) hrest
              obtain ⟨ihfin, ihlt, ihlen, ihseq⟩ := ih
              have hsum : recordSum ((tid, records) :: rest)
                  = records.length + recordSum rest := by
                simp [recordSum]
              refine ⟨by omega, by omega, by rw [← h1]; simp [ihlen], ?_⟩
              intro j hj
              cases j with
              | zero =>
                refine ⟨by simpa using hseq, ?_⟩
                rw [← h1]
                simp only [List.getD_cons_zero, List.take_zero]
                obtain ⟨rb, pl, _, _, _, _, hpkt⟩ :=
                  build_data_packet_structure s u seq i tid fields records pkt hbd
                rw [hpkt, v9_header_seq_field]
                simp [recordSum]
                omega
              | succ j =>
                have hj' : j < rest.length := by
                  simp only [List.length_cons] at hj; omega
                have := ihseq j hj'
                have htake : recordSum (((tid, records) :: rest).take (j + 1))
                    = records.length + recordSum (rest.take j) := by
                  simp [recordSum]
                rw [← h1]
                simp only [List.getD_cons_succ]
                refine ⟨by rw [htake]; omega, ?_⟩
                rw [htake, ← Nat.add_assoc]
                exact this.2

/-- The v9 override sequence number is used verbatim. -/
theorem v9_get_header_values_override (config : V9Config) (S now : Nat) :
    (v9_get_header_values config (some S) now).2.2.1 = S := rfl

/-- Full inversion of a successful `build_v9_packets` run with templates
present and `send_templates = true`: the template message comes first and
carries the initial sequence number; the data messages carry the running
sequence numbers; the returned sequence is the initial one plus the total
record count. -/
theorem build_v9_packets_templates_spec (config : V9Config) (S now : Nat)
    (packets : List (List Nat)) (next : Nat)
    (hS : S < 2^32) (htm : extractTemplates config.flowsets ≠ [])
    (hok : build_v9_packets config (some S) true now = .ok (packets, next)) :
    ∃ tpkt dpkts, packets = tpkt :: dpkts ∧
      readBe32 tpkt 12 = S ∧
      dpkts.length = (extractData config.flowsets).length ∧
      (∀ j, j < (extractData config.flowsets).length →
        readBe32 (dpkts.getD j []) 12
          = S + recordSum ((extractData config.flowsets).take j)) ∧
      next = S + recordSum (extractData config.flowsets) := by
  unfold build_v9_packets at hok
  simp only [v9_get_header_values_override] at hok
  have hcond : (extractTemplates config.flowsets).isEmpty = false := by
    cases hE : extractTemplates config.flowsets with
    | nil => exact absurd hE htm
    | cons a l => simp
  rw [if_pos (⟨hcond, trivial⟩ :
    (extractTemplates config.flowsets).isEmpty = false ∧ True)] at hok
  simp only [Bind.bind, Except.bind] at hok
  set s := (v9_get_header_values config (some S) now).1 with hs
  set u := (v9_get_header_values config (some S) now).2.1 with hu
  set i := (v9_get_header_values config (some S) now).2.2.2 with hi
  cases htp : build_template_packet s u S i (extractTemplates config.flowsets) with
  | error e => rw [htp] at hok; exact absurd hok (by simp)
  | ok tpkt =>
    rw [htp] at hok
    simp only [pure, Except.pure] at hok
    cases hdl : v9DataLoop s u i (extractTemplates config.flowsets)
        (extractData config.flowsets) S with
    | error e => rw [hdl] at hok; exact absurd hok (by simp)
    | ok res =>
      obtain ⟨dpkts, fin⟩ := res
      rw [hdl] at hok
      simp only [List.cons_append, List.nil_append] at hok
      split at hok
      · exact absurd hok (by simp)
      · simp only [Except.ok.injEq, Prod.mk.injEq] at hok
        obtain ⟨h1, h2⟩ := hok
        obtain ⟨hfin, _, hlen, hseqs⟩ :=
          v9DataLoop_spec (extractData config.flowsets) s u i S
            (extractTemplates config.flowsets) dpkts fin hS hdl
        obtain ⟨ext, hext⟩ := build_template_packet_prefix s u S i
          (extractTemplates config.flowsets) tpkt htp
        refine ⟨tpkt, dpkts, h1.symm, ?_, by rw [hlen], ?_, by omega⟩
        · rw [hext, v9_header_seq_field]
          omega
        · intro j hj
          exact (hseqs j (by rw [← hlen] at hj; rw [← hlen]; omega)).2

/-- A v9 entry with templates but no data flowsets: the build fails whenever
`send_templates` is false, and succeeds with exactly the template message
(and an unchanged sequence number) whenever `send_templates` is true and the
template message itself builds. -/
theorem build_v9_packets_template_only (config : V9Config) (ov : Option Nat)
    (now s u q i : Nat)
    (hget : v9_get_header_values config ov now = (s, u, q, i))
    (hdata : extractData config.flowsets = [])
    (htm : extractTemplates config.flowsets ≠ []) :
    build_v9_packets config ov false now
      = .error "V9 configuration must contain at least one template or data flowset" ∧
    (∀ t, build_template_packet s u q i (extractTemplates config.flowsets) = .ok t →
      build_v9_packets config ov true now = .ok ([t], q)) := by
  constructor
  · unfold build_v9_packets
    rw [hget, hdata]
    simp [v9DataLoop, Bind.bind, Except.bind, pure, Except.pure]
  · intro t ht
    unfold build_v9_packets
    rw [hget, hdata]
    have hcond : (extractTemplates config.flowsets).isEmpty = false := by
      cases hE : extractTemplates config.flowsets with
      | nil => exact absurd hE htm
      | cons a l => simp
    simp only [hcond]
    simp only [Bind.bind, Except.bind]
    simp only [ht]
    simp [v9DataLoop, pure, Except.pure]

/-- If some data flowset references a template that is not defined, the v9
data loop can never succeed. -/
theorem v9DataLoop_missing :
    ∀ (data : List (Nat × List YamlValue)) (tpl : List (Nat × List TemplateField))
      (d : Nat × List YamlValue), d ∈ data → lookupTemplate tpl d.1 = none →
    ∀ (s u i seq : Nat) (res : List (List Nat) × Nat),
      v9DataLoop s u i tpl data seq ≠ .ok res
  | (tid, records) :: rest, tpl, d, hmem, hnone, s, u, i, seq, res, hok => by
    simp only [v9DataLoop] at hok
    rcases List.mem_cons.mp hmem with hd | hd
    · subst hd
      rw [hnone] at hok
      exact absurd hok (by simp)
    · split at hok
      · exact absurd hok (by simp)
      · cases hbd : build_data_packet s u seq i tid _ records with
        | error e =>
          rw [hbd] at hok; exact absurd hok (by simp [Bind.bind, Except.bind])
        | ok pkt =>
          rw [hbd] at hok
          simp only [Bind.bind, Except.bind] at hok
          split at hok
          · exact absurd hok (by simp)
          · split at hok
            · exact absurd hok (by simp)
            · cases hrest : v9DataLoop s u i tpl rest (seq + records.length) with
              | error e =>
                rw [hrest] at hok
                exact absurd hok (by simp [Bind.bind, Except.bind])
              | ok res2 =>
                exact v9DataLoop_missing rest tpl d hd hnone s u i
                  (seq + records.length) res2 hrest

/-- A successful v9 build implies its data loop succeeded. -/
theorem build_v9_packets_ok_loop (config : V9Config) (ov : Option Nat)
    (st : Bool) (now : Nat) (res : List (List Nat) × Nat)
    (hok : build_v9_packets config ov st now = .ok res) :
    ∃ dres, v9DataLoop (v9_get_header_values config ov now).1
      (v9_get_header_values config ov now).2.1
      (v9_get_header_values config ov now).2.2.2
      (extractTemplates config.flowsets) (extractData config.flowsets)
      (v9_get_header_values config ov now).2.2.1 = .ok dres := by
  unfold build_v9_packets at hok
  simp only [] at hok
  split at hok
  · cases htp : build_template_packet (v9_get_header_values config ov now).1
        (v9_get_header_values config ov now).2.1
        (v9_get_header_values config ov now).2.2.1
        (v9_get_header_values config ov now).2.2.2
        (extractTemplates config.flowsets) with
    | error e => rw [htp] at hok; exact absurd hok (by simp [Bind.bind, Except.bind])
    | ok t =>
      rw [htp] at hok
      simp only [Bind.bind, Except.bind, pure, Except.pure] at hok
      cases hdl : v9DataLoop (v9_get_header_values config ov now).1
          (v9_get_header_values config ov now).2.1
          (v9_get_header_values config ov now).2.2.2
          (extractTemplates config.flowsets) (extractData config.flowsets)
          (v9_get_header_values config ov now).2.2.1 with
      | error e => rw [hdl] at hok; exact absurd hok (by simp)
      | ok dres => exact ⟨dres, rfl⟩
  · simp only [Bind.bind, Except.bind, pure, Except.pure] at hok
    cases hdl : v9DataLoop (v9_get_header_values config ov now).1
        (v9_get_header_values config ov now).2.1
        (v9_get_header_values config ov now).2.2.2
        (extractTemplates config.flowsets) (extractData config.flowsets)
        (v9_get_header_values config ov now).2.2.1 with
    | error e => rw [hdl] at hok; exact absurd hok (by simp)
    | ok dres => exact ⟨dres, rfl⟩

/-- An undefined template reference makes the whole v9 build fail. -/
theorem build_v9_packets_missing_template (config : V9Config) (ov : Option Nat)
    (st : Bool) (now : Nat) (d : Nat × List YamlValue)
    (hmem : d ∈ extractData config.flowsets)
    (hnone : lookupTemplate (extractTemplates config.flowsets) d.1 = none) :
    ∃ e, build_v9_packets config ov st now = .error e := by
  cases hres : build_v9_packets config ov st now with
  | error e => exact ⟨e, rfl⟩
  | ok res =>
    obtain ⟨dres, hdl⟩ := build_v9_packets_ok_loop config ov st now res hres
    exact absurd hdl (v9DataLoop_missing _ _ d hmem hnone _ _ _ _ dres)

/-- If some data flowset references a template that is not defined, the
IPFIX data loop can never succeed. -/
theorem ipfixDataLoop_missing :
    ∀ (data : List (Nat × List YamlValue)) (tpl : List (Nat × List TemplateField))
      (d : Nat × List YamlValue), d ∈ data → lookupTemplate tpl d.1 = none →
    ∀ (e dom seq : Nat) (res : List (List Nat)),
      ipfixDataLoop e dom tpl data seq ≠ .ok res
  | (tid, records) :: rest, tpl, d, hmem, hnone, e, dom, seq, res, hok => by
    simp only [ipfixDataLoop] at hok
    rcases List.mem_cons.mp hmem with hd | hd
    · subst hd
      rw [hnone] at hok
      exact absurd hok (by simp)
    · split at hok
      · exact absurd hok (by simp)
      · cases hbd : ipfix_build_data_packet e seq dom tid _ records with
        | error err =>
          rw [hbd] at hok; exact absurd hok (by simp [Bind.bind, Except.bind])
        | ok pkt =>
          rw [hbd] at hok
          simp only [Bind.bind, Except.bind] at hok
          cases hrest : ipfixDataLoop e dom tpl rest ((seq + 1) % 2^32) with
          | error err =>
            rw [hrest] at hok
            exact absurd hok (by simp)
          | ok res2 =>
            exact ipfixDataLoop_missing rest tpl d hd hnone e dom
              ((seq + 1) % 2^32) res2 hrest

/-- A successful IPFIX build implies its data loop succeeded. -/
theorem build_ipfix_packets_ok_loop (config : IPFixConfig) (now : Nat)
    (res : List (List Nat))
    (hok : build_ipfix_packets config now = .ok res) :
    ∃ seq dres, ipfixDataLoop (ipfix_get_header_values config now).1
      (ipfix_get_header_values config now).2.2
      (extractTemplates config.flowsets) (extractData config.flowsets) seq
      = .ok dres := by
  unfold build_ipfix_packets at hok
  simp only [] at hok
  split at hok
  · cases htp : ipfix_build_template_packet (ipfix_get_header_values config now).1
        (ipfix_get_header_values config now).2.1
        (ipfix_get_header_values config now).2.2
        (extractTemplates config.flowsets) with
    | error e => rw [htp] at hok; exact absurd hok (by simp [Bind.bind, Except.bind])
    | ok t =>
      rw [htp] at hok
      simp only [Bind.bind, Except.bind, pure, Except.pure] at hok
      cases hdl : ipfixDataLoop (ipfix_get_header_values config now).1
          (ipfix_get_header_values config now).2.2
          (extractTemplates config.flowsets) (extractData config.flowsets)
          (((ipfix_get_header_values config now).2.1 + 1) % 2^32) with
      | error e => rw [hdl] at hok; exact absurd hok (by simp)
      | ok dres => exact ⟨_, dres, hdl⟩
  · simp only [Bind.bind, Except.bind, pure, Except.pure] at hok
    cases hdl : ipfixDataLoop (ipfix_get_header_values config now).1
        (ipfix_get_header_values config now).2.2
        (extractTemplates config.flowsets) (extractData config.flowsets)
        ((ipfix_get_header_values config now).2.1) with
    | error e => rw [hdl] at hok; exact absurd hok (by simp)
    | ok dres => exact ⟨_, dres, hdl⟩

/-- An undefined template reference makes the whole IPFIX build fail. -/
theorem build_ipfix_packets_missing_template (config : IPFixConfig) (now : Nat)
    (d : Nat × List YamlValue)
    (hmem : d ∈ extractData config.flowsets)
    (hnone : lookupTemplate (extractTemplates config.flowsets) d.1 = none) :
    ∃ e, build_ipfix_packets config now = .error e := by
  cases hres : build_ipfix_packets config now with
  | error e => exact ⟨e, rfl⟩
  | ok res =>
    obtain ⟨seq, dres, hdl⟩ := build_ipfix_packets_ok_loop config now res hres
    exact absurd hdl (ipfixDataLoop_missing _ _ d hmem hnone _ _ _ dres)

/-! ## Structural lemmas about the IPFIX data builder -/

/-- Inversion of the IPFIX `build_data_packet`: a successful build is the
16-byte header with the back-patched total length, the set id, the
back-patched set length, the record bytes and the zero padding. -/
theorem ipfix_build_data_packet_structure (e q dom tid : Nat)
    (fields : List TemplateField) (records : List YamlValue) (pkt : List Nat)
    (hok : ipfix_build_data_packet e q dom tid fields records = .ok pkt) :
    ∃ rb pl, ipfixRecordsBytes fields records = .ok rb ∧
      pl < 4 ∧ (4 + rb.length + pl) % 4 = 0 ∧ 4 + rb.length + pl < 2^16 ∧
      20 + rb.length + pl < 2^16 ∧
      pkt = be16 10 ++ (be16 (20 + rb.length + pl) ++ (be32 e ++ (be32 q ++
        (be32 dom ++ (be16 tid ++ (be16 (4 + rb.length + pl) ++
        (rb ++ List.replicate pl 0))))))) := by
  unfold ipfix_build_data_packet at hok
  cases hrb : ipfixRecordsBytes fields records with
  | error err => rw [hrb] at hok; exact absurd hok (by simp [Bind.bind, Except.bind])
  | ok rb =>
    rw [hrb] at hok
    simp only [Bind.bind, Except.bind] at hok
    have hlen1 : (ipfixMsgHeader 0 e q dom ++ be16 tid).length = 18 := by
      simp [ipfixMsgHeader, be16, be32]
    rw [hlen1] at hok
    have hlen2 : ((ipfixMsgHeader 0 e q dom ++ be16 tid) ++ be16 0 ++ rb).length
        = 20 + rb.length := by
      simp [ipfixMsgHeader, be16, be32]
      omega
    rw [hlen2] at hok
    set pl := (4 - (20 + rb.length - 18 + 2) % 4) % 4 with hpl
    have hlen3 : (((ipfixMsgHeader 0 e q dom ++ be16 tid) ++ be16 0 ++ rb) ++
        List.replicate pl 0).length = 20 + rb.length + pl := by
      simp [ipfixMsgHeader, be16, be32]
      omega
    rw [hlen3] at hok
    split at hok
    · exact absurd hok (by simp)
    · rename_i hsl
      have hfl : 20 + rb.length + pl - 18 + 2 = 4 + rb.length + pl := by omega
      rw [hfl] at hok
      have heq :
          ((ipfixMsgHeader 0 e q dom ++ be16 tid) ++ be16 0 ++ rb) ++
            List.replicate pl 0
          = (ipfixMsgHeader 0 e q dom ++ be16 tid) ++
            (be16 0 ++ (rb ++ List.replicate pl 0)) := by
        simp [List.append_assoc]
      rw [heq, writeBe16At_append_of_le _ _ _ _ (by rw [hlen1]), hlen1] at hok
      simp only [Nat.sub_self, writeBe16At_zero] at hok
      have hdrop : (be16 0 ++ (rb ++ List.replicate pl 0)).drop 2
          = rb ++ List.replicate pl 0 := by
        simp [be16]
      rw [hdrop] at hok
      have hlen4 : ((ipfixMsgHeader 0 e q dom ++ be16 tid) ++
          (be16 (4 + rb.length + pl) ++ (rb ++ List.replicate pl 0))).length
          = 20 + rb.length + pl := by
        simp [ipfixMsgHeader, be16, be32]
        omega
      rw [hlen4] at hok
      split at hok
      · exact absurd hok (by simp)
      · rename_i htot
        injection hok with hok
        refine ⟨rb, pl, rfl, by omega, by omega, by omega, by omega, ?_⟩
        rw [← hok]
        have heq2 : (ipfixMsgHeader 0 e q dom ++ be16 tid) ++
            (be16 (4 + rb.length + pl) ++ (rb ++ List.replicate pl 0))
            = be16 10 ++ (be16 0 ++ (be32 e ++ (be32 q ++ (be32 dom ++
              (be16 tid ++ (be16 (4 + rb.length + pl) ++
              (rb ++ List.replicate pl 0))))))) := by
          simp [ipfixMsgHeader, List.append_assoc]
        rw [heq2, writeBe16At_append_of_le _ _ _ _ (by simp [be16]),
          be16_length]
        simp only [Nat.sub_self, writeBe16At_zero]
        have hdrop2 : (be16 0 ++ (be32 e ++ (be32 q ++ (be32 dom ++
            (be16 tid ++ (be16 (4 + rb.length + pl) ++
            (rb ++ List.replicate pl 0))))))).drop 2
            = be32 e ++ (be32 q ++ (be32 dom ++ (be16 tid ++
              (be16 (4 + rb.length + pl) ++ (rb ++ List.replicate pl 0))))) := by
          simp [be16]
        rw [hdrop2]

/-! ## Structural lemmas about the capture-frame builder -/

/-- Inversion of `build_udp_packet`: the frame is the Ethernet header, the
IPv4 header with the computed checksum patched in at bytes 10-11 of the
header, the UDP header and the payload. -/
theorem build_udp_packet_structure (src_ip dest_ip : Ipv4)
    (src_port dest_port : Nat) (payload pkt : List Nat)
    (hok : build_udp_packet src_ip src_port dest_ip dest_port payload = .ok pkt) :
    ∃ c, calculate_checksum
        (([0x45, 0x00] ++ be16 (28 + payload.length) ++
          [0x00, 0x00, 0x40, 0x00, 64, 17]) ++
         ([0x00, 0x00] ++ (src_ip.octets ++ dest_ip.octets))) = .ok c ∧
      28 + payload.length < 2^16 ∧
      pkt = ([0x00, 0x00, 0x00, 0x00, 0x00, 0x02, 0x00, 0x00, 0x00, 0x00,
              0x00, 0x01, 0x08, 0x00] ++
             ([0x45, 0x00] ++ be16 (28 + payload.length) ++
              [0x00, 0x00, 0x40, 0x00, 64, 17])) ++
            (be16 c ++
             ((src_ip.octets ++ dest_ip.octets) ++
              (be16 src_port ++ be16 dest_port ++ be16 (8 + payload.length) ++
               [0x00, 0x00] ++ payload))) := by
  unfold build_udp_packet at hok
  simp only [] at hok
  split at hok
  · exact absurd hok (by simp)
  · rename_i hlen
    have hpktform :
        ([0x00, 0x00, 0x00, 0x00, 0x00, 0x02] ++ [0x00, 0x00, 0x00, 0x00, 0x00, 0x01] ++
          [0x08, 0x00] : List Nat) ++ [0x45, 0x00] ++ be16 (20 + 8 + payload.length) ++
          [0x00, 0x00] ++ [0x40, 0x00] ++ [64, 17] ++ [0x00, 0x00] ++
          src_ip.octets ++ dest_ip.octets
        = ([0x00, 0x00, 0x00, 0x00, 0x00, 0x02, 0x00, 0x00, 0x00, 0x00,
            0x00, 0x01, 0x08, 0x00] : List Nat) ++
          ((([0x45, 0x00] ++ be16 (28 + payload.length) ++
            [0x00, 0x00, 0x40, 0x00, 64, 17]) : List Nat) ++
           ([0x00, 0x00] ++ (src_ip.octets ++ dest_ip.octets))) := by
      simp [List.append_assoc]
    rw [hpktform] at hok
    have hlen14 :
        ([0x00, 0x00, 0x00, 0x00, 0x00, 0x02, 0x00, 0x00, 0x00, 0x00,
          0x00, 0x01, 0x08, 0x00] : List Nat).length = 14 := rfl
    have hlenip :
        ((([0x45, 0x00] ++ be16 (28 + payload.length) ++
          [0x00, 0x00, 0x40, 0x00, 64, 17]) : List Nat) ++
         ([0x00, 0x00] ++ (src_ip.octets ++ dest_ip.octets))).length = 20 := by
      simp [be16, Ipv4.octets]
    rw [List.drop_left' hlen14, List.take_of_length_le (le_of_eq hlenip)] at hok
    cases hck : calculate_checksum
        ((([0x45, 0x00] ++ be16 (28 + payload.length) ++
          [0x00, 0x00, 0x40, 0x00, 64, 17]) : List Nat) ++
         ([0x00, 0x00] ++ (src_ip.octets ++ dest_ip.octets))) with
    | error e => rw [hck] at hok; exact absurd hok (by simp [Bind.bind, Except.bind])
    | ok c =>
      rw [hck] at hok
      simp only [Bind.bind, Except.bind] at hok
      split at hok
      · exact absurd hok (by simp)
      · rename_i hlen2
        injection hok with hok
        refine ⟨c, rfl, by omega, ?_⟩
        rw [← hok]
        rw [writeBe16At_append_of_le _ _ 24 c (by rw [hlen14]; omega), hlen14]
        have h24 : 24 - 14 = 10 := rfl
        rw [h24,
          writeBe16At_append_of_le _ _ 10 c (by simp [be16]),
          show (([0x45, 0x00] ++ be16 (28 + payload.length) ++
            [0x00, 0x00, 0x40, 0x00, 64, 17]) : List Nat).length = 10 by simp [be16]]
        simp only [Nat.sub_self, writeBe16At_zero]
        have hdrop2 : (([0x00, 0x00] : List Nat) ++
            (src_ip.octets ++ dest_ip.octets)).drop 2
            = src_ip.octets ++ dest_ip.octets := by simp
        rw [hdrop2]
        simp [List.append_assoc]

/-- Inversion of `calculate_checksum`. -/
theorem calculate_checksum_inv (data : List Nat) (c : Nat)
    (hok : calculate_checksum data = .ok c) :
    ∃ s, sumWords data 0 = .ok s ∧ c = 2^16 - 1 - foldCarry s := by
  unfold calculate_checksum at hok
  cases hs : sumWords data 0 with
  | error e => rw [hs] at hok; exact absurd hok (by simp [Bind.bind, Except.bind])
  | ok s =>
    rw [hs] at hok
    simp only [Bind.bind, Except.bind] at hok
    injection hok with hok
    exact ⟨s, rfl, hok.symm⟩

/-- The value computed by a successful word-sum run. -/
theorem sumWords_value : ∀ (data : List Nat) (acc s : Nat),
    sumWords data acc = .ok s → s = acc + wordSumPure data
  | [], acc, s, h => by
    simp only [sumWords] at h
    injection h with h
    simp [wordSumPure, h.symm]
  | [b], acc, s, h => by
    simp only [sumWords] at h
    split at h
    · exact absurd h (by simp)
    · injection h with h
      simp [wordSumPure, h.symm]
  | b0 :: b1 :: rest, acc, s, h => by
    simp only [sumWords] at h
    split at h
    · exact absurd h (by simp)
    · have := sumWords_value rest (acc + (b0 * 2^8 + b1)) s h
      simp only [wordSumPure]
      omega

/-- Claim C8: for every IPv4 source address, destination address, ports and
payload, the capture frame built by `build_udp_packet` carries an IPv4
header checksum such that the one's-complement 16-bit sum of all ten
big-endian words of the 20-byte IPv4 header (checksum included) folds to
`0xFFFF`; equivalently, the stored checksum is the bitwise NOT (on `u16`,
`65535 - x`) of the one's-complement sum of the header with the checksum
field zero. -/
theorem C8_capture_frame_ipv4_checksum (src_ip dest_ip : Ipv4)
    (src_port dest_port : Nat) (payload pkt : List Nat)
    (hsrc : src_ip.o0 < 2^8 ∧ src_ip.o1 < 2^8 ∧ src_ip.o2 < 2^8 ∧ src_ip.o3 < 2^8)
    (hdest : dest_ip.o0 < 2^8 ∧ dest_ip.o1 < 2^8 ∧ dest_ip.o2 < 2^8 ∧ dest_ip.o3 < 2^8)
    (hok : build_udp_packet src_ip src_port dest_ip dest_port payload = .ok pkt) :
    (∃ s, sumWords ((pkt.drop 14).take 20) 0 = .ok s ∧ foldCarry s = 2^16 - 1) ∧
    calculate_checksum (writeBe16At ((pkt.drop 14).take 20) 10 0)
      = .ok (readBe16 pkt 24) := by
  obtain ⟨c, hck, hlen, hpkt⟩ :=
    build_udp_packet_structure src_ip dest_ip src_port dest_port payload pkt hok
  obtain ⟨s0, hs0, hc⟩ := calculate_checksum_inv _ c hck
  have hfold_lt := foldCarry_lt s0
  have hclt : c < 2^16 := by omega
  have hs0val := sumWords_value _ 0 s0 hs0
  -- Normalize the packet into Ethernet ++ (final IP header ++ tail).
  have hpkt2 : pkt =
      ([0x00, 0x00, 0x00, 0x00, 0x00, 0x02, 0x00, 0x00, 0x00, 0x00,
        0x00, 0x01, 0x08, 0x00] : List Nat) ++
      ((([0x45, 0x00] ++ be16 (28 + payload.length) ++
         [0x00, 0x00, 0x40, 0x00, 64, 17]) ++
        (be16 c ++ (src_ip.octets ++ dest_ip.octets))) ++
       (be16 src_port ++ be16 dest_port ++ be16 (8 + payload.length) ++
        [0x00, 0x00] ++ payload)) := by
    rw [hpkt]; simp [List.append_assoc]
  have hdrop14 : pkt.drop 14 =
      ((([0x45, 0x00] ++ be16 (28 + payload.length) ++
         [0x00, 0x00, 0x40, 0x00, 64, 17]) ++
        (be16 c ++ (src_ip.octets ++ dest_ip.octets))) ++
       (be16 src_port ++ be16 dest_port ++ be16 (8 + payload.length) ++
        [0x00, 0x00] ++ payload)) := by
    rw [hpkt2]; exact List.drop_left' rfl
  have hipf : (pkt.drop 14).take 20 =
      ([0x45, 0x00] ++ be16 (28 + payload.length) ++
       [0x00, 0x00, 0x40, 0x00, 64, 17]) ++
      (be16 c ++ (src_ip.octets ++ dest_ip.octets)) := by
    rw [hdrop14]
    exact List.take_left' (by simp [be16, Ipv4.octets])
  -- The two word sums differ by exactly the checksum value.
  have e1 := wordSumPure_append
    ([0x45, 0x00] ++ be16 (28 + payload.length) ++ [0x00, 0x00, 0x40, 0x00, 64, 17])
    (([0x00, 0x00] : List Nat) ++ (src_ip.octets ++ dest_ip.octets))
    (by simp [be16])
  have e3 := wordSumPure_append
    ([0x45, 0x00] ++ be16 (28 + payload.length) ++ [0x00, 0x00, 0x40, 0x00, 64, 17])
    (be16 c ++ (src_ip.octets ++ dest_ip.octets))
    (by simp [be16])
  have e2 : wordSumPure (([0x00, 0x00] : List Nat) ++
      (src_ip.octets ++ dest_ip.octets))
      = wordSumPure (src_ip.octets ++ dest_ip.octets) := by
    show wordSumPure (0 :: 0 :: _) = _
    simp [wordSumPure]
  have e4 : wordSumPure (be16 c ++ (src_ip.octets ++ dest_ip.octets))
      = c + wordSumPure (src_ip.octets ++ dest_ip.octets) := by
    show wordSumPure (_ :: _ :: _) = _
    simp only [wordSumPure]
    omega
  -- Bound the final header's word sum below 2^32.
  have hb1 : wordSumPure ([0x45, 0x00] ++ be16 (28 + payload.length) ++
      [0x00, 0x00, 0x40, 0x00, 64, 17]) ≤ 2^17 := by
    simp [wordSumPure, be16]
    omega
  have hb2 : wordSumPure (src_ip.octets ++ dest_ip.octets) ≤ 4 * 65535 := by
    simp [wordSumPure, Ipv4.octets]
    omega
  have hsumf : sumWords ((pkt.drop 14).take 20) 0
      = .ok (0 + wordSumPure (([0x45, 0x00] ++ be16 (28 + payload.length) ++
        [0x00, 0x00, 0x40, 0x00, 64, 17]) ++
        (be16 c ++ (src_ip.octets ++ dest_ip.octets)))) := by
    rw [hipf]
    exact sumWords_ok _ 0 (by rw [e3, e4]; omega)
  constructor
  · refine ⟨_, hsumf, ?_⟩
    have hval : 0 + wordSumPure (([0x45, 0x00] ++ be16 (28 + payload.length) ++
        [0x00, 0x00, 0x40, 0x00, 64, 17]) ++
        (be16 c ++ (src_ip.octets ++ dest_ip.octets))) = s0 + c := by
      rw [e3, e4]
      rw [e1, e2] at hs0val
      omega
    rw [hval, hc]
    exact foldCarry_checksum_round s0
  · have hzero : writeBe16At ((pkt.drop 14).take 20) 10 0
        = ([0x45, 0x00] ++ be16 (28 + payload.length) ++
           [0x00, 0x00, 0x40, 0x00, 64, 17]) ++
          (([0x00, 0x00] : List Nat) ++ (src_ip.octets ++ dest_ip.octets)) := by
      rw [hipf, writeBe16At_append_of_le _ _ _ _ (by simp [be16]),
        show (([0x45, 0x00] ++ be16 (28 + payload.length) ++
          [0x00, 0x00, 0x40, 0x00, 64, 17]) : List Nat).length = 10 by simp [be16]]
      simp only [Nat.sub_self, writeBe16At_zero]
      have : (be16 c ++ (src_ip.octets ++ dest_ip.octets)).drop 2
          = src_ip.octets ++ dest_ip.octets := by simp [be16]
      rw [this]
      rfl
    have hread : readBe16 pkt 24 = c := by
      rw [hpkt]
      rw [readBe16_at_append _ _ 24 c (by simp [be16])]
      omega
    rw [hzero, hread]
    exact hck

/-! ## Structural lemmas about the v5 builder -/

theorem v5RecordBytes_length (fs : V5FlowSet) : (v5RecordBytes fs).length = 48 := by
  simp [v5RecordBytes, be16, be32, Ipv4.octets]

theorem v5_flatten_length : ∀ (l : List V5FlowSet),
    ((l.map v5RecordBytes).flatten).length = 48 * l.length
  | [] => by simp
  | fs :: rest => by
    simp only [List.map_cons, List.flatten_cons, List.length_append,
      v5_flatten_length rest, v5RecordBytes_length, List.length_cons]
    omega

theorem v5HeaderBytes_length (count a b c fs et ei si : Nat) :
    (v5HeaderBytes count a b c fs et ei si).length = 24 := by
  simp [v5HeaderBytes, be16, be32]

/-- The `flow_sequence` field sits at bytes 16-19 of the v5 header. -/
theorem v5HeaderBytes_seq (count a b c flowSeq et ei si : Nat) (rest : List Nat) :
    readBe32 (v5HeaderBytes count a b c flowSeq et ei si ++ rest) 16
      = flowSeq % 2^32 := by
  have heq : v5HeaderBytes count a b c flowSeq et ei si ++ rest
      = (be16 5 ++ be16 count ++ be32 a ++ be32 b ++ be32 c) ++
        (be32 flowSeq ++ ([et % 2^8, ei % 2^8] ++ be16 si ++ rest)) := by
    simp [v5HeaderBytes, List.append_assoc]
  rw [heq]
  exact readBe32_at_append _ _ 16 _ (by simp [be16, be32])

/-- Inversion of the (sequence-overriding) `build_v5_packet`: the buffer is
the 24-byte header carrying the override sequence, followed by the 48-byte
records. -/
theorem build_v5_packet_structure (config : V5Config) (S now : Nat)
    (buf : List Nat) (hok : build_v5_packet config (some S) now = .ok buf) :
    ∃ a b c et ei si, buf = v5HeaderBytes config.flowsets.length a b c S et ei si ++
      (config.flowsets.map v5RecordBytes).flatten := by
  unfold build_v5_packet at hok
  split at hok
  · exact absurd hok (by simp)
  · unfold v5_build_header at hok
    split at hok
    · exact absurd hok (by simp [Bind.bind, Except.bind])
    · simp only [Bind.bind, Except.bind] at hok
      injection hok with hok
      exact ⟨_, _, _, _, _, _, hok.symm⟩

/-- One more data flowset adds exactly its record count to the running sum. -/
theorem recordSum_take_succ : ∀ (data : List (Nat × List YamlValue)) (j : Nat),
    j < data.length →
    recordSum (data.take (j + 1))
      = recordSum (data.take j) + (data.getD j (0, [])).2.length
  | [], j, hj => by simp at hj
  | d :: rest, 0, _ => by simp [recordSum]
  | d :: rest, j + 1, hj => by
    have := recordSum_take_succ rest j (by simpa using hj)
    simp only [List.take_succ_cons, List.getD_cons_succ, recordSum,
      List.map_cons, List.sum_cons] at *
    omega

/-! ## Claim theorems -/

/-- Claim C2: for every v9 flow entry and initial sequence number `S` with
templates included (`send_templates = true`, at least one template), on a
successful build the template message comes first and carries sequence `S`
without advancing it; the `j`-th data message carries the running sequence
`S` plus the records of the earlier data flowsets; successive data messages
therefore increase by exactly their record counts; and the returned next
sequence equals `S` plus the total record count. -/
theorem C2_v9_sequence_numbers (config : V9Config) (S now : Nat)
    (packets : List (List Nat)) (next : Nat)
    (hS : S < 2^32) (htm : extractTemplates config.flowsets ≠ [])
    (hok : build_v9_packets config (some S) true now = .ok (packets, next)) :
    ∃ tpkt dpkts, packets = tpkt :: dpkts ∧
      readBe32 tpkt 12 = S ∧
      dpkts.length = (extractData config.flowsets).length ∧
      (∀ j, j < (extractData config.flowsets).length →
        readBe32 (dpkts.getD j []) 12
          = S + recordSum ((extractData config.flowsets).take j)) ∧
      (∀ j, j + 1 < (extractData config.flowsets).length →
        readBe32 (dpkts.getD (j + 1) []) 12
          = readBe32 (dpkts.getD j []) 12
            + ((extractData config.flowsets).getD j (0, [])).2.length) ∧
      next = S + recordSum (extractData config.flowsets) := by
  obtain ⟨tpkt, dpkts, h1, h2, h3, h4, h5⟩ :=
    build_v9_packets_templates_spec config S now packets next hS htm hok
  refine ⟨tpkt, dpkts, h1, h2, h3, h4, ?_, h5⟩
  intro j hj
  rw [h4 j (by omega), h4 (j + 1) hj,
    recordSum_take_succ (extractData config.flowsets) j (by omega)]
  omega

/-- Witness for C2 at a concrete entry: one template (id 256, a 1-byte
PROTOCOL field) and one data flowset with a single record, built with
initial sequence 5. -/
theorem C2_v9_sequence_numbers_witness :
    ∃ tpkt dpkts,
      ([[0, 9, 0, 1, 0, 5, 126, 64, 0, 0, 0, 0, 0, 0, 0, 5, 0, 0, 0, 1,
         0, 0, 0, 12, 1, 0, 0, 1, 0, 4, 0, 1],
        [0, 9, 0, 1, 0, 5, 126, 64, 0, 0, 0, 0, 0, 0, 0, 5, 0, 0, 0, 1,
         1, 0, 0, 8, 6, 0, 0, 0]] : List (List Nat)) = tpkt :: dpkts ∧
      readBe32 tpkt 12 = 5 ∧
      dpkts.length = (extractData (V9Config.mk none
        [.template 256 [⟨"PROTOCOL", 1⟩],
         .data 256 [.mapping [("protocol", .numU 6)]]]).flowsets).length ∧
      (∀ j, j < (extractData (V9Config.mk none
          [.template 256 [⟨"PROTOCOL", 1⟩],
           .data 256 [.mapping [("protocol", .numU 6)]]]).flowsets).length →
        readBe32 (dpkts.getD j []) 12
          = 5 + recordSum ((extractData (V9Config.mk none
              [.template 256 [⟨"PROTOCOL", 1⟩],
               .data 256 [.mapping [("protocol", .numU 6)]]]).flowsets).take j)) ∧
      (∀ j, j + 1 < (extractData (V9Config.mk none
          [.template 256 [⟨"PROTOCOL", 1⟩],
           .data 256 [.mapping [("protocol", .numU 6)]]]).flowsets).length →
        readBe32 (dpkts.getD (j + 1) []) 12
          = readBe32 (dpkts.getD j []) 12
            + ((extractData (V9Config.mk none
                [.template 256 [⟨"PROTOCOL", 1⟩],
                 .data 256 [.mapping [("protocol", .numU 6)]]]).flowsets).getD
                j (0, [])).2.length) ∧
      6 = 5 + recordSum (extractData (V9Config.mk none
        [.template 256 [⟨"PROTOCOL", 1⟩],
         .data 256 [.mapping [("protocol", .numU 6)]]]).flowsets) :=
  C2_v9_sequence_numbers
    (V9Config.mk none
      [.template 256 [⟨"PROTOCOL", 1⟩],
       .data 256 [.mapping [("protocol", .numU 6)]]])
    5 0 _ 6 (by decide) (by simp [extractTemplates]) rfl

/-- Claim C5: for every v9 and IPFIX data message produced by
`build_data_packet`, the back-patched 16-bit flowset/set length equals the
number of bytes from the start of the set-id field (offset 20 for v9,
offset 16 for IPFIX) to the end of the padded set, that length is a
multiple of 4, and the padding bytes appended after the serialized records
to reach the 4-byte boundary are zeros. -/
theorem C5_data_set_length_and_padding :
    (∀ s u q i tid fields records rb pkt,
      v9RecordsBytes fields records = .ok rb →
      build_data_packet s u q i tid fields records = .ok pkt →
      readBe16 pkt 22 = pkt.length - 20 ∧
      (pkt.length - 20) % 4 = 0 ∧
      pkt.length - (24 + rb.length) < 4 ∧
      pkt.drop (24 + rb.length)
        = List.replicate (pkt.length - (24 + rb.length)) 0) ∧
    (∀ e q dom tid fields records rb pkt,
      ipfixRecordsBytes fields records = .ok rb →
      ipfix_build_data_packet e q dom tid fields records = .ok pkt →
      readBe16 pkt 18 = pkt.length - 16 ∧
      (pkt.length - 16) % 4 = 0 ∧
      pkt.length - (20 + rb.length) < 4 ∧
      pkt.drop (20 + rb.length)
        = List.replicate (pkt.length - (20 + rb.length)) 0) := by
  constructor
  · intro s u q i tid fields records rb pkt hrb hok
    obtain ⟨rb', pl, hrb', hpl, hmod, hlt, hpkt⟩ :=
      build_data_packet_structure s u q i tid fields records pkt hok
    rw [hrb] at hrb'
    injection hrb' with hrb'
    subst hrb'
    have hlenpkt : pkt.length = 24 + rb.length + pl := by
      rw [hpkt]
      simp [v9MsgHeader_length, be16_length]
      omega
    refine ⟨?_, by omega, by omega, ?_⟩
    · have hread : readBe16 pkt 22 = (4 + rb.length + pl) % 2^16 := by
        have heq : pkt = (v9MsgHeader 1 s u q i ++ be16 tid) ++
            (be16 (4 + rb.length + pl) ++ (rb ++ List.replicate pl 0)) := by
          rw [hpkt]; simp [List.append_assoc]
        rw [heq]
        exact readBe16_at_append _ _ 22 _
          (by simp [v9MsgHeader_length, be16_length])
      rw [hread, hlenpkt]
      omega
    · have hdrop : pkt.drop (24 + rb.length) = List.replicate pl 0 := by
        have heq : pkt = (v9MsgHeader 1 s u q i ++ (be16 tid ++
            (be16 (4 + rb.length + pl) ++ rb))) ++ List.replicate pl 0 := by
          rw [hpkt]; simp [List.append_assoc]
        rw [heq]
        exact List.drop_left'
          (by simp [v9MsgHeader_length, be16_length]; omega)
      rw [hdrop, hlenpkt]
      congr 1
      omega
  · intro e q dom tid fields records rb pkt hrb hok
    obtain ⟨rb', pl, hrb', hpl, hmod, hlt, htot, hpkt⟩ :=
      ipfix_build_data_packet_structure e q dom tid fields records pkt hok
    rw [hrb] at hrb'
    injection hrb' with hrb'
    subst hrb'
    have hlenpkt : pkt.length = 20 + rb.length + pl := by
      rw [hpkt]
      simp [be16, be32]
      omega
    refine ⟨?_, by omega, by omega, ?_⟩
    · have hread : readBe16 pkt 18 = (4 + rb.length + pl) % 2^16 := by
        have heq : pkt = (be16 10 ++ (be16 (20 + rb.length + pl) ++ (be32 e ++
            (be32 q ++ (be32 dom ++ be16 tid))))) ++
            (be16 (4 + rb.length + pl) ++ (rb ++ List.replicate pl 0)) := by
          rw [hpkt]; simp [List.append_assoc]
        rw [heq]
        exact readBe16_at_append _ _ 18 _ (by simp [be16, be32])
      rw [hread, hlenpkt]
      omega
    · have hdrop : pkt.drop (20 + rb.length) = List.replicate pl 0 := by
        have heq : pkt = (be16 10 ++ (be16 (20 + rb.length + pl) ++ (be32 e ++
            (be32 q ++ (be32 dom ++ (be16 tid ++
            (be16 (4 + rb.length + pl) ++ rb))))))) ++ List.replicate pl 0 := by
          rw [hpkt]; simp [List.append_assoc]
        rw [heq]
        exact List.drop_left' (by simp [be16, be32]; omega)
      rw [hdrop, hlenpkt]
      congr 1
      omega

/-- Witness for C5 at concrete v9 and IPFIX data sets: one 1-byte field and
one record, so the 5 content bytes are padded with 3 zeros to a set length
of 8 (v9) and 24 (IPFIX message length, set length 8). -/
theorem C5_data_set_length_and_padding_witness :
    (readBe16 ([0, 9, 0, 1, 0, 0, 0, 0, 0, 0, 0, 0, 0, 0, 0, 0, 0, 0, 0, 1,
        1, 0, 0, 8, 6, 0, 0, 0] : List Nat) 22
      = ([0, 9, 0, 1, 0, 0, 0, 0, 0, 0, 0, 0, 0, 0, 0, 0, 0, 0, 0, 1,
          1, 0, 0, 8, 6, 0, 0, 0] : List Nat).length - 20) ∧
    (readBe16 ([0, 10, 0, 24, 0, 0, 0, 0, 0, 0, 0, 0, 0, 0, 0, 1,
        1, 0, 0, 8, 6, 0, 0, 0] : List Nat) 18
      = ([0, 10, 0, 24, 0, 0, 0, 0, 0, 0, 0, 0, 0, 0, 0, 1,
          1, 0, 0, 8, 6, 0, 0, 0] : List Nat).length - 16) := by
  constructor
  · exact (C5_data_set_length_and_padding.1 0 0 0 1 256 [⟨"PROTOCOL", 1⟩]
      [.mapping [("protocol", .numU 6)]] [6] _ rfl rfl).1
  · exact (C5_data_set_length_and_padding.2 0 0 1 256 [⟨"protocolIdentifier", 1⟩]
      [.mapping [("protocol_identifier", .numU 6)]] [6] _ rfl rfl).1

/-- Claim C6: for every v9 or IPFIX flow entry, if some data flowset's
template id matches no template flowset defined in the same entry, the
build returns an error (and hence no packets are produced). -/
theorem C6_undefined_template_fails_build :
    (∀ (config : V9Config) (ov : Option Nat) (st : Bool) (now : Nat)
       (d : Nat × List YamlValue),
      d ∈ extractData config.flowsets →
      lookupTemplate (extractTemplates config.flowsets) d.1 = none →
      ∃ e, build_v9_packets config ov st now = .error e) ∧
    (∀ (config : IPFixConfig) (now : Nat) (d : Nat × List YamlValue),
      d ∈ extractData config.flowsets →
      lookupTemplate (extractTemplates config.flowsets) d.1 = none →
      ∃ e, build_ipfix_packets config now = .error e) :=
  ⟨fun config ov st now d hmem hnone =>
    build_v9_packets_missing_template config ov st now d hmem hnone,
   fun config now d hmem hnone =>
    build_ipfix_packets_missing_template config now d hmem hnone⟩

/-- Witness for C6: a v9 entry and an IPFIX entry whose only flowset is a
data flowset referencing template 999, which is not defined. -/
theorem C6_undefined_template_fails_build_witness :
    (∃ e, build_v9_packets (V9Config.mk none [.data 999 []]) none true 0
      = .error e) ∧
    (∃ e, build_ipfix_packets (IPFixConfig.mk none [.data 999 []]) 0
      = .error e) :=
  ⟨C6_undefined_template_fails_build.1 (V9Config.mk none [.data 999 []])
      none true 0 (999, []) (by simp [extractData]) rfl,
   C6_undefined_template_fails_build.2 (IPFixConfig.mk none [.data 999 []])
      0 (999, []) (by simp [extractData]) rfl⟩

/-- Claim C10 (implicit): a v9 entry whose flowsets are all templates (at
least one template, no data flowsets) fails the build with a generation
error whenever `send_templates = false`, although the same entry builds
successfully (producing exactly the template message, sequence unchanged)
whenever `send_templates = true` and the template message itself builds. -/
theorem C10_template_only_entry (config : V9Config) (ov : Option Nat)
    (now s u q i : Nat)
    (hget : v9_get_header_values config ov now = (s, u, q, i))
    (hdata : extractData config.flowsets = [])
    (htm : extractTemplates config.flowsets ≠ []) :
    build_v9_packets config ov false now
      = .error "V9 configuration must contain at least one template or data flowset" ∧
    (∀ t, build_template_packet s u q i (extractTemplates config.flowsets) = .ok t →
      build_v9_packets config ov true now = .ok ([t], q)) :=
  build_v9_packets_template_only config ov now s u q i hget hdata htm

/-- Witness for C10: a template-only v9 entry (template 256 with one
PROTOCOL field) fails with `send_templates = false` and succeeds with
`send_templates = true`. -/
theorem C10_template_only_entry_witness :
    build_v9_packets (V9Config.mk none [.template 256 [⟨"PROTOCOL", 1⟩]])
        (some 3) false 0
      = .error "V9 configuration must contain at least one template or data flowset" ∧
    build_v9_packets (V9Config.mk none [.template 256 [⟨"PROTOCOL", 1⟩]])
        (some 3) true 0
      = .ok ([[0, 9, 0, 1, 0, 5, 126, 64, 0, 0, 0, 0, 0, 0, 0, 3, 0, 0, 0, 1,
              0, 0, 0, 12, 1, 0, 0, 1, 0, 4, 0, 1]], 3) := by
  have h := C10_template_only_entry
    (V9Config.mk none [.template 256 [⟨"PROTOCOL", 1⟩]]) (some 3) 0
    360000 0 3 1 rfl rfl (by simp [extractTemplates])
  exact ⟨h.1, h.2 _ rfl⟩

/-- Claim C3: the v5 builder of the sequence-tracking pipeline takes a flow
entry and a sequence number `S`, emits exactly one byte buffer (of
`24 + 48·count` bytes) whose header `flow_sequence` field equals `S`, and
yields `S + count` as the new sequence number, where `count` is the number
of flowsets in the entry. -/
theorem C3_v5_builder_sequence (config : V5Config) (S now : Nat)
    (buf : List Nat) (S2 : Nat) (hS : S < 2^32)
    (hok : v5_step config S now = .ok (buf, S2)) :
    readBe32 buf 16 = S ∧ S2 = S + config.flowsets.length ∧
    buf.length = 24 + 48 * config.flowsets.length := by
  unfold v5_step at hok
  cases hbp : build_v5_packet config (some S) now with
  | error e => rw [hbp] at hok; exact absurd hok (by simp [Bind.bind, Except.bind])
  | ok buf' =>
    rw [hbp] at hok
    simp only [Bind.bind, Except.bind] at hok
    split at hok
    · exact absurd hok (by simp)
    · split at hok
      · exact absurd hok (by simp)
      · simp only [Except.ok.injEq, Prod.mk.injEq] at hok
        obtain ⟨hbuf, hS2⟩ := hok
        subst hbuf
        obtain ⟨a, b, c, et, ei, si, hstruct⟩ :=
          build_v5_packet_structure config S now buf' hbp
        refine ⟨?_, hS2.symm, ?_⟩
        · rw [hstruct, v5HeaderBytes_seq]
          omega
        · rw [hstruct]
          simp only [List.length_append, v5HeaderBytes_length, v5_flatten_length]

/-- Witness for C3: one flowset, initial sequence 9; the buffer is 72 bytes,
carries 9 at bytes 16-19, and the next sequence is 10. -/
theorem C3_v5_builder_sequence_witness :
    readBe32 ([0, 5, 0, 1, 0, 5, 126, 64, 0, 0, 0, 0, 0, 0, 0, 0,
      0, 0, 0, 9, 0, 0, 0, 0, 192, 168, 1, 10, 10, 0, 0, 50,
      192, 168, 1, 1, 0, 1, 0, 2, 0, 0, 0, 100, 0, 0, 253, 232,
      0, 5, 87, 48, 0, 5, 126, 64, 212, 49, 1, 187, 0, 24, 6, 0,
      253, 233, 253, 234, 24, 24, 0, 0] : List Nat) 16 = 9 ∧
    (10 : Nat) = 9 + ([⟨⟨192, 168, 1, 10⟩, ⟨10, 0, 0, 50⟩, ⟨192, 168, 1, 1⟩,
      1, 2, 100, 65000, 350000, 360000, 54321, 443, 24, 6, 0, 65001, 65002,
      24, 24⟩] : List V5FlowSet).length ∧
    ([0, 5, 0, 1, 0, 5, 126, 64, 0, 0, 0, 0, 0, 0, 0, 0,
      0, 0, 0, 9, 0, 0, 0, 0, 192, 168, 1, 10, 10, 0, 0, 50,
      192, 168, 1, 1, 0, 1, 0, 2, 0, 0, 0, 100, 0, 0, 253, 232,
      0, 5, 87, 48, 0, 5, 126, 64, 212, 49, 1, 187, 0, 24, 6, 0,
      253, 233, 253, 234, 24, 24, 0, 0] : List Nat).length
      = 24 + 48 * ([⟨⟨192, 168, 1, 10⟩, ⟨10, 0, 0, 50⟩, ⟨192, 168, 1, 1⟩,
      1, 2, 100, 65000, 350000, 360000, 54321, 443, 24, 6, 0, 65001, 65002,
      24, 24⟩] : List V5FlowSet).length :=
  C3_v5_builder_sequence
    (V5Config.mk none [⟨⟨192, 168, 1, 10⟩, ⟨10, 0, 0, 50⟩, ⟨192, 168, 1, 1⟩,
      1, 2, 100, 65000, 350000, 360000, 54321, 443, 24, 6, 0, 65001, 65002,
      24, 24⟩])
    9 0 _ 10 (by decide) rfl

/-! ## Claim theorems about the value encoder -/

theorem natToBE_one (v : Nat) : natToBE 1 v = [v % 2^8] := by
  simp [natToBE, List.range_succ, Nat.div_one]

theorem natToBE_two (v : Nat) : natToBE 2 v = be16 v := by
  simp [natToBE, be16, List.range_succ, Nat.div_one]

theorem natToBE_four (v : Nat) : natToBE 4 v = be32 v := by
  simp [natToBE, be32, List.range_succ, Nat.div_one]

theorem natToBE_eight (v : Nat) : natToBE 8 v = be64 v := by
  simp [natToBE, be64, List.range_succ, Nat.div_one]

/-- Claim C9: for every non-negative integer value `v` (a `u64` in the
source) and declared length `L ∈ {1,2,4,8}`, `serialize_field_value`
returns exactly the lower `L` bytes of `v` in big-endian order (`v` reduced
modulo `2^(8L)`, zero-extended to `L` bytes; `natToBE` is that
specification) and never returns an error (it is a total function); for a
numeric value and any other length it returns `L` zero bytes. -/
theorem C9_numeric_serialization (v L : Nat) :
    ((L = 1 ∨ L = 2 ∨ L = 4 ∨ L = 8) →
      serialize_field_value (.numU v) L = natToBE L v) ∧
    (L ≠ 1 → L ≠ 2 → L ≠ 4 → L ≠ 8 →
      serialize_field_value (.numU v) L = List.replicate L 0) := by
  constructor
  · rintro (rfl | rfl | rfl | rfl)
    · simp [serialize_field_value, natToBE_one]
    · simp [serialize_field_value, natToBE_two]
    · simp [serialize_field_value, natToBE_four]
    · simp [serialize_field_value, natToBE_eight]
  · intro h1 h2 h4 h8
    simp [serialize_field_value, h1, h2, h4, h8]

/-- Witness for C9: the value 65000 at length 2 gives its two big-endian
bytes, and at length 3 gives three zero bytes. -/
theorem C9_numeric_serialization_witness :
    serialize_field_value (.numU 65000) 2 = natToBE 2 65000 ∧
    serialize_field_value (.numU 65000) 3 = List.replicate 3 0 :=
  ⟨(C9_numeric_serialization 65000 2).1 (by decide),
   (C9_numeric_serialization 65000 3).2 (by decide) (by decide) (by decide)
     (by decide)⟩

/-- Counterexample to claim C4 as stated: "for a string parseable as IPv4
and a declared length L, the encoder emits the four octets when L = 4 and L
zero bytes for every other L".  At L = 2 with the parseable string
"1.2.3.4" the source emits the four octets `[1, 2, 3, 4]`, not two zero
bytes: `serialize_field_value` returns `ip.octets().to_vec()` without
consulting `field_length` (field_serializer.rs:10-11). -/
theorem C4_counterexample :
    parseIpv4 ("1.2.3.4" : String).data = some (1, 2, 3, 4) ∧
    serialize_field_value (.str "1.2.3.4") 2 = [1, 2, 3, 4] ∧
    serialize_field_value (.str "1.2.3.4") 2 ≠ List.replicate 2 0 := by
  refine ⟨by decide, by decide, by decide⟩

/-- Claim C4 (amended): for every record value that is a string parseable
as an IPv4 address, `serialize_field_value` emits the address's four octets
for every declared length `L` (not only `L = 4`); `L` zero bytes are
emitted only when the string does not parse as IPv4. -/
theorem C4_ipv4_string_serialization (s : String) (o : Nat × Nat × Nat × Nat)
    (L : Nat) :
    (parseIpv4 s.data = some o →
      serialize_field_value (.str s) L = [o.1, o.2.1, o.2.2.1, o.2.2.2]) ∧
    (parseIpv4 s.data = none →
      serialize_field_value (.str s) L = List.replicate L 0) := by
  constructor
  · intro h
    obtain ⟨a, b, c, d⟩ := o
    simp [serialize_field_value, h]
  · intro h
    simp [serialize_field_value, h]

/-- Witness for C4 (amended): "1.2.3.4" at length 2 yields the octets, and
the unparseable "hello" at length 2 yields two zero bytes. -/
theorem C4_ipv4_string_serialization_witness :
    serialize_field_value (.str "1.2.3.4") 2 = [1, 2, 3, 4] ∧
    serialize_field_value (.str "hello") 2 = List.replicate 2 0 :=
  ⟨(C4_ipv4_string_serialization "1.2.3.4" (1, 2, 3, 4) 2).1 (by decide),
   (C4_ipv4_string_serialization "hello" (0, 0, 0, 0) 2).2 (by decide)⟩

/-- Counterexample to claim C7 as stated: startup validation is claimed to
reject a configuration with an undefined template reference, but
`validate_config` (validator.rs:5-32) checks only for empty `flows` and an
unparseable destination IP.  A configuration whose only v9 entry has a data
flowset referencing the undefined template 999 passes `validate_config`;
the reference only fails later, inside the packet build. -/
theorem C7_counterexample :
    validate_config (Config.mk [FlowConfig.v9 (V9Config.mk none [.data 999 []])]
        (Destination.mk "127.0.0.1" 2055)) = .ok () ∧
    lookupTemplate (extractTemplates ([.data 999 []] : List FlowSet)) 999 = none ∧
    build_v9_packets (V9Config.mk none [.data 999 []]) none true 0
      = .error "Data flowset references undefined template ID: 999" :=
  ⟨rfl, rfl, rfl⟩

/-- Claim C7 (amended): `validate_config` is fatal at startup exactly for a
configuration with empty `flows` or a destination IP that parses as
neither IPv4 nor IPv6; it performs no template checks, so an undefined
template reference passes startup validation and is detected only when the
per-entry build runs, which then returns an error. -/
theorem C7_startup_validation :
    (∀ dest : Destination, validate_config (Config.mk [] dest)
      = .error "Configuration must contain at least one flow") ∧
    (∀ config : Config, config.flows ≠ [] →
      ip_addr_parses config.destination.ip = false →
      validate_config config
        = .error ("Invalid IP address: " ++ config.destination.ip)) ∧
    (∀ config : Config, config.flows ≠ [] →
      ip_addr_parses config.destination.ip = true →
      validate_config config = .ok ()) ∧
    (∀ (config : V9Config) (ov : Option Nat) (st : Bool) (now : Nat)
       (d : Nat × List YamlValue),
      d ∈ extractData config.flowsets →
      lookupTemplate (extractTemplates config.flowsets) d.1 = none →
      ∃ e, build_v9_packets config ov st now = .error e) := by
  refine ⟨fun dest => rfl, ?_, ?_, ?_⟩
  · intro config hflows hip
    have hne : config.flows.isEmpty = false := by
      cases hF : config.flows with
      | nil => exact absurd hF hflows
      | cons a l => simp
    simp [validate_config, hne, hip]
  · intro config hflows hip
    have hne : config.flows.isEmpty = false := by
      cases hF : config.flows with
      | nil => exact absurd hF hflows
      | cons a l => simp
    simp [validate_config, hne, hip]
  · exact fun config ov st now d hmem hnone =>
      build_v9_packets_missing_template config ov st now d hmem hnone

/-- Witness for C7 (amended) at concrete configurations. -/
theorem C7_startup_validation_witness :
    validate_config (Config.mk [] (Destination.mk "127.0.0.1" 2055))
      = .error "Configuration must contain at least one flow" ∧
    validate_config (Config.mk [FlowConfig.v9 (V9Config.mk none [.data 999 []])]
        (Destination.mk "invalid_ip" 2055))
      = .error ("Invalid IP address: " ++ "invalid_ip") ∧
    validate_config (Config.mk [FlowConfig.v9 (V9Config.mk none [.data 999 []])]
        (Destination.mk "127.0.0.1" 2055)) = .ok () ∧
    (∃ e, build_v9_packets (V9Config.mk none [.data 999 []]) none true 0
      = .error e) :=
  ⟨C7_startup_validation.1 (Destination.mk "127.0.0.1" 2055),
   C7_startup_validation.2.1 _ (by simp) (by decide),
   C7_startup_validation.2.2.1 _ (by simp) (by decide),
   C7_startup_validation.2.2.2 (V9Config.mk none [.data 999 []]) none true 0
     (999, []) (by simp [extractData]) rfl⟩

/-- Claim C1 evaluated on the source (code_bug record): the IPFIX draft in
src/src/generator/ipfix.rs advances the sequence number by 1 after the
template message (line 46) and by 1 per data set (line 72), instead of
counting data records and leaving templates out, as the claim (and RFC 7011
§3.1, the spec, the v9 builder of the same repository, and the call site in
src/main.rs) require.  For the entry below — one template and one data
flowset with a single record, header sequence number 0 — the claim demands
that the data message carry sequence 0 (the template message must not
advance it); the source emits it with sequence 1: the message list is
`[template, data]` and the sequence fields at byte offset 8 read
`[0, 1]`. -/
theorem C1_ipfix_sequence_draft_behavior :
    (build_ipfix_packets (IPFixConfig.mk
        (some (IPFixHeader.mk (some 100) (some 0) (some 3)))
        [.template 256 [⟨"protocolIdentifier", 1⟩],
         .data 256 [.mapping [("protocol_identifier", .numU 6)]]]) 0).map
      (fun pkts => (pkts.length, pkts.map (fun p => readBe32 p 8)))
      = .ok (2, [0, 1]) := rfl

/-- Witness for C8: the concrete frame for source 10.0.0.1:12345,
destination 192.0.2.7:9995 and an empty payload. -/
theorem C8_capture_frame_ipv4_checksum_witness :
    (∃ s, sumWords ((([0, 0, 0, 0, 0, 2, 0, 0, 0, 0, 0, 1, 8, 0, 69, 0,
        0, 28, 0, 0, 64, 0, 64, 17, 110, 201, 10, 0, 0, 1, 192, 0,
        2, 7, 48, 57, 39, 11, 0, 8, 0, 0] : List Nat).drop 14).take 20) 0
        = .ok s ∧ foldCarry s = 2^16 - 1) ∧
    calculate_checksum (writeBe16At
        ((([0, 0, 0, 0, 0, 2, 0, 0, 0, 0, 0, 1, 8, 0, 69, 0,
        0, 28, 0, 0, 64, 0, 64, 17, 110, 201, 10, 0, 0, 1, 192, 0,
        2, 7, 48, 57, 39, 11, 0, 8, 0, 0] : List Nat).drop 14).take 20) 10 0)
      = .ok (readBe16 ([0, 0, 0, 0, 0, 2, 0, 0, 0, 0, 0, 1, 8, 0, 69, 0,
        0, 28, 0, 0, 64, 0, 64, 17, 110, 201, 10, 0, 0, 1, 192, 0,
        2, 7, 48, 57, 39, 11, 0, 8, 0, 0] : List Nat) 24) :=
  C8_capture_frame_ipv4_checksum (Ipv4.mk 10 0 0 1) (Ipv4.mk 192 0 2 7)
    12345 9995 [] _ (by decide) (by decide) rfl
